import Mathlib

/-!
Verification of the durable cooking-coach pipeline (orchestrator, idempotency
gate, stage functions) against its natural-language specification.

The Python source is shallowly embedded:

* JSON values manipulated by the stages become the inductive `Json`; Python
  `dict`/`list` equality (`==`) becomes `Json.beq`; JSON numbers are modelled
  as exact rationals (CPython parses them into `int`/`float`; the claims under
  verification only involve order/equality of such numbers, for which the
  rational idealisation is faithful; the nonfinite literals `NaN`/`Infinity`
  accepted by CPython's decoder are outside the model).
* `json.JSONDecoder().raw_decode` (used by `_parse_json_response` in
  `pipeline/stages/db_helpers.py`) is embedded as the fuel-indexed recursive
  parser `parseValue`, following CPython's grammar: strings with escapes and
  surrogate-pair handling, numbers per the scanner regular expression
  (maximal-munch integer/fraction/exponent parts), objects and arrays with
  JSON whitespace, and the keywords `null`/`true`/`false`.  A lone surrogate
  escape, which CPython keeps as an unpaired code unit, is degraded through
  `Char.ofNat` since Lean characters are scalar values; no claim depends on it.
* The relational store becomes the record `DB` of association lists; SQLModel
  sessions/commits become pure state passing, and a `with`-block transaction
  that raises before commit leaves the store unchanged.
* Each blocking external call (GCS, STT, Gemini, pgvector, TTS, FFmpeg) is a
  parameter of the stage's environment record carrying that call's outcome,
  `Except String` mirroring raise-vs-return; prompt construction, which only
  feeds those external calls, is absorbed into the environment's response.
* Python datetime columns (`created_at`, `updated_at`,
  `coaching_text_delivered_at`) are omitted: no claim mentions them.
-/

/-- JSON values as produced by CPython's `json` decoder: `dict` → `obj`
(association list in key-insertion order, keys unique), `list` → `arr`,
numbers → exact rationals. -/
inductive Json where
  | null
  | bool (b : Bool)
  | num (q : ℚ)
  | str (s : String)
  | arr (xs : List Json)
  | obj (kvs : List (String × Json))
  deriving Repr

mutual

/-- Python `==` on decoded JSON values (numbers compared by value, mirroring
Python where `1 == 1.0`). -/
def Json.beq : Json → Json → Bool
  | .null, .null => true
  | .bool a, .bool b => a == b
  | .num a, .num b => a == b
  | .str a, .str b => a == b
  | .arr a, .arr b => Json.beqList a b
  | .obj a, .obj b => Json.beqObj a b
  | _, _ => false

def Json.beqList : List Json → List Json → Bool
  | [], [] => true
  | x :: xs, y :: ys => Json.beq x y && Json.beqList xs ys
  | _, _ => false

def Json.beqObj : List (String × Json) → List (String × Json) → Bool
  | [], [] => true
  | (k, v) :: xs, (l, w) :: ys => k == l && Json.beq v w && Json.beqObj xs ys
  | _, _ => false

end

instance : BEq Json := ⟨Json.beq⟩

/-- Python `d[k]` / `d.get(k)` on a decoded JSON object; `none` on a missing
key or a non-object (the Python `AttributeError`/`TypeError` raised by the
latter is handled at each call site). -/
def jGet (j : Json) (k : String) : Option Json :=
  match j with
  | Json.obj kvs => (kvs.find? (fun p => p.1 == k)).map (fun p => p.2)
  | _ => none

/-- Python `d.get(k, dflt)`. -/
def jGetD (j : Json) (k : String) (dflt : Json) : Json :=
  (jGet j k).getD dflt

/-- Python `d.keys()` of a decoded JSON object. -/
def jKeys (j : Json) : List String :=
  match j with
  | Json.obj kvs => kvs.map (fun p => p.1)
  | _ => []

/-- Python truthiness of a decoded JSON value (`if x:`). -/
def jTruthy (j : Json) : Bool :=
  match j with
  | Json.null => false
  | Json.bool b => b
  | Json.num q => !(q == 0)
  | Json.str s => !(s == "")
  | Json.arr xs => !xs.isEmpty
  | Json.obj kvs => !kvs.isEmpty

/-- Python `dict` assignment `d[k] = v`: replace the value of an existing key
in place, else append the new key (insertion order preserved). -/
def insertKV : List (String × Json) → String → Json → List (String × Json)
  | [], k, v => [(k, v)]
  | (k₁, v₁) :: rest, k, v =>
    if k₁ == k then (k₁, v) :: rest else (k₁, v₁) :: insertKV rest k v

/-- Python `d[k] = v` on a decoded JSON value; assignment on a non-object is
unreachable at every call site (the parser only hands objects there). -/
def Json.setKey (j : Json) (k : String) (v : Json) : Json :=
  match j with
  | Json.obj kvs => Json.obj (insertKV kvs k v)
  | _ => j

/-! ## CPython `json.JSONDecoder().raw_decode`, embedded -/

/-- JSON whitespace, per CPython's decoder (` `, tab, newline, carriage
return). -/
def isJsonWS (c : Char) : Bool :=
  c == ' ' || c == '\t' || c == '\n' || c == '\r'

/-- Drop leading JSON whitespace. -/
def skipWS : List Char → List Char
  | [] => []
  | c :: cs => if isJsonWS c then skipWS cs else c :: cs

/-- Value of one hexadecimal digit (both cases), `none` otherwise. -/
def hexVal (c : Char) : Option Nat :=
  if c.isDigit then some (c.toNat - 48)
  else if 'a' ≤ c && c ≤ 'f' then some (c.toNat - 87)
  else if 'A' ≤ c && c ≤ 'F' then some (c.toNat - 55)
  else none

/-- Four hexadecimal digits of a `\\uXXXX` escape. -/
def parseHex4 : List Char → Option (Nat × List Char)
  | a :: b :: c :: d :: rest => do
    let x ← hexVal a
    let y ← hexVal b
    let z ← hexVal c
    let w ← hexVal d
    some ((((x * 16 + y) * 16 + z) * 16 + w), rest)
  | _ => none

/-- Body of a JSON string after the opening quote, per CPython's
`py_scanstring` in strict mode: plain characters (control characters
rejected), the short escapes, and `\\uXXXX` with surrogate-pair combination.
Returns the decoded characters and the input after the closing quote. -/
def parseStringBody : Nat → List Char → Option (List Char × List Char)
  | 0, _ => none
  | _, [] => none
  | fuel + 1, c :: cs =>
    if c == '"' then some ([], cs)
    else if c == '\\' then
      match cs with
      | [] => none
      | e :: cs₁ =>
        if e == 'u' then
          match parseHex4 cs₁ with
          | none => none
          | some (n, r₁) =>
            if 0xD800 ≤ n && n < 0xDC00 then
              match r₁ with
              | '\\' :: 'u' :: r₂ =>
                match parseHex4 r₂ with
                | some (m, r₃) =>
                  if 0xDC00 ≤ m && m < 0xE000 then
                    (parseStringBody fuel r₃).map
                      (fun p =>
                        (Char.ofNat (0x10000 + (n - 0xD800) * 0x400 + (m - 0xDC00)) :: p.1, p.2))
                  else
                    (parseStringBody fuel r₁).map (fun p => (Char.ofNat n :: p.1, p.2))
                | none =>
                  (parseStringBody fuel r₁).map (fun p => (Char.ofNat n :: p.1, p.2))
              | _ =>
                (parseStringBody fuel r₁).map (fun p => (Char.ofNat n :: p.1, p.2))
            else
              (parseStringBody fuel r₁).map (fun p => (Char.ofNat n :: p.1, p.2))
        else
          let esc : Option Char :=
            if e == '"' then some '"'
            else if e == '\\' then some '\\'
            else if e == '/' then some '/'
            else if e == 'b' then some (Char.ofNat 8)
            else if e == 'f' then some (Char.ofNat 12)
            else if e == 'n' then some '\n'
            else if e == 'r' then some '\r'
            else if e == 't' then some '\t'
            else none
          match esc with
          | none => none
          | some ch => (parseStringBody fuel cs₁).map (fun p => (ch :: p.1, p.2))
    else if c.toNat < 0x20 then none
    else (parseStringBody fuel cs).map (fun p => (c :: p.1, p.2))

/-- Maximal run of decimal digits. -/
def parseDigits : List Char → (List Char × List Char)
  | [] => ([], [])
  | c :: cs =>
    if c.isDigit then
      let p := parseDigits cs
      (c :: p.1, p.2)
    else ([], c :: cs)

/-- Natural number denoted by a digit run. -/
def digitsToNat (ds : List Char) : Nat :=
  ds.foldl (fun acc c => acc * 10 + (c.toNat - 48)) 0

/-- JSON number per CPython's scanner regular expression — optional minus,
then a bare `0` or a nonzero digit followed by digits, then an optional
fraction `.` + digits, then an optional exponent `e`/`E` + optional sign +
digits — with maximal munch: a fraction or exponent part that does not fully
match is left unconsumed. -/
def parseNumber (cs : List Char) : Option (ℚ × List Char) :=
  let signed : Bool × List Char :=
    match cs with
    | '-' :: rest => (true, rest)
    | _ => (false, cs)
  let neg := signed.1
  match signed.2 with
  | [] => none
  | c :: rest =>
    if c == '0' then
      let afterInt := rest
      let intVal : Nat := 0
      some (numberFrom neg intVal afterInt)
    else if c.isDigit then
      let p := parseDigits rest
      some (numberFrom neg (digitsToNat (c :: p.1)) p.2)
    else none
where
  /-- Fraction and exponent parts, then assembly of the rational value. -/
  numberFrom (neg : Bool) (intVal : Nat) (afterInt : List Char) : ℚ × List Char :=
    let fracP : Nat × Nat × List Char :=
      match afterInt with
      | '.' :: r =>
        let p := parseDigits r
        if p.1.isEmpty then (0, 0, afterInt)
        else (digitsToNat p.1, p.1.length, p.2)
      | _ => (0, 0, afterInt)
    let fracVal := fracP.1
    let fracLen := fracP.2.1
    let afterFrac := fracP.2.2
    let expP : Int × List Char :=
      match afterFrac with
      | e :: r =>
        if e == 'e' || e == 'E' then
          let signedE : Bool × List Char :=
            match r with
            | '-' :: r₁ => (true, r₁)
            | '+' :: r₁ => (false, r₁)
            | _ => (false, r)
          let p := parseDigits signedE.2
          if p.1.isEmpty then (0, afterFrac)
          else ((if signedE.1 then -(digitsToNat p.1 : Int) else (digitsToNat p.1 : Int)), p.2)
        else (0, afterFrac)
      | _ => (0, afterFrac)
    let mantissa : ℚ := (intVal : ℚ) + (fracVal : ℚ) / (10 : ℚ) ^ fracLen
    let value : ℚ := (if neg then -mantissa else mantissa) * (10 : ℚ) ^ expP.1
    (value, expP.2)

mutual

/-- CPython `scan_once`: one JSON value starting exactly at the head of the
input (no leading whitespace skipped), returning the value and the rest of the
input.  Fuel decreases at each nested value and each aggregate member; any
fuel of at least `input length + 1` is enough, since every recursive step has
consumed at least one character. -/
def parseValue : Nat → List Char → Option (Json × List Char)
  | 0, _ => none
  | fuel + 1, cs =>
    match cs with
    | '"' :: rest =>
      (parseStringBody (rest.length + 1) rest).map (fun p => (Json.str (String.mk p.1), p.2))
    | '{' :: rest =>
      match skipWS rest with
      | '}' :: r => some (Json.obj [], r)
      | cs₁ => parseMembers fuel cs₁ []
    | '[' :: rest =>
      match skipWS rest with
      | ']' :: r => some (Json.arr [], r)
      | cs₁ => parseElements fuel cs₁ []
    | 'n' :: 'u' :: 'l' :: 'l' :: rest => some (Json.null, rest)
    | 't' :: 'r' :: 'u' :: 'e' :: rest => some (Json.bool true, rest)
    | 'f' :: 'a' :: 'l' :: 's' :: 'e' :: rest => some (Json.bool false, rest)
    | c :: _ =>
      if c == '-' || c.isDigit then
        (parseNumber cs).map (fun p => (Json.num p.1, p.2))
      else none
    | [] => none

/-- Member loop of CPython's `JSONObject`: positioned at a property name
(after `{`+whitespace or `,`+whitespace); a closing brace is only legal
through the delimiter check after a member, so no trailing comma. -/
def parseMembers : Nat → List Char → List (String × Json) → Option (Json × List Char)
  | 0, _, _ => none
  | fuel + 1, cs, acc =>
    match cs with
    | '"' :: rest =>
      match parseStringBody (rest.length + 1) rest with
      | none => none
      | some (key, r₁) =>
        match skipWS r₁ with
        | ':' :: r₂ =>
          match parseValue fuel (skipWS r₂) with
          | none => none
          | some (v, r₃) =>
            let acc₁ := insertKV acc (String.mk key) v
            match skipWS r₃ with
            | '}' :: r₄ => some (Json.obj acc₁, r₄)
            | ',' :: r₄ => parseMembers fuel (skipWS r₄) acc₁
            | _ => none
        | _ => none
    | _ => none

/-- Element loop of CPython's `JSONArray`: positioned at a value; a closing
bracket is only legal through the delimiter check after an element. -/
def parseElements : Nat → List Char → List Json → Option (Json × List Char)
  | 0, _, _ => none
  | fuel + 1, cs, acc =>
    match parseValue fuel cs with
    | none => none
    | some (v, r₁) =>
      match skipWS r₁ with
      | ']' :: r₂ => some (Json.arr (acc ++ [v]), r₂)
      | ',' :: r₂ => parseElements fuel (skipWS r₂) (acc ++ [v])
      | _ => none

end

/-- CPython `json.JSONDecoder().raw_decode` at a given position, represented
by the suffix of the text from that position: the decoded value and the
unconsumed rest, or `none` for `JSONDecodeError`. -/
def rawDecode (cs : List Char) : Option (Json × List Char) :=
  parseValue (cs.length + 1) cs

/-- Embeds `_parse_json_response` (`pipeline/stages/db_helpers.py`): find the
first `\x7b` with `str.find`, `raw_decode` there, `ValueError` (as
`Except.error` with the source's message) when there is no `\x7b` or the
decode fails.  `pipeline.utils.parse_json_response`, imported by the
coaching-script and narration-script stages, is not under `src/`; per its
tests (`test_utils.py` matches the same `No JSON object found` message) and
the specification it is the same extraction function, so both names are
embedded by this single definition. -/
def _parse_json_response (text : String) : Except String Json :=
  let cs := text.toList
  let suffix := cs.dropWhile (fun c => c != '{')
  match suffix with
  | [] => Except.error ("No JSON object found in response: " ++ String.mk (cs.take 200))
  | _ =>
    match rawDecode suffix with
    | some (v, _) => Except.ok v
    | none => Except.error ("Failed to parse JSON from response: " ++ String.mk (cs.take 200))

/-! ## Data model (`backend/models`), embedded

Relational rows become records; association lists keyed by primary key stand
for tables.  Columns no pipeline code touches (timestamps, `self_ratings`,
`pipeline_job_id`, `learning_velocity`, `next_focus`, `ready_for_next_dish`,
message metadata) are omitted.  The SQLModel `list | None` JSON columns of
`LearnerState` are modelled as plain lists: every read in the source
immediately applies `or []`, collapsing `None` and the empty list. -/

/-- Row of the `session` table (`backend/models/session.py`). -/
structure CookingSession where
  user_id : Nat
  dish_id : Nat
  session_number : Nat
  custom_dish_name : Option String := none
  raw_video_url : String := ""
  voice_memo_url : Option String := none
  voice_transcript : String := ""
  structured_input : Option Json := none
  status : String := "pending_upload"
  pipeline_error : String := ""
  video_analysis : Option Json := none
  coaching_text : Option Json := none
  narration_script : Option Json := none
  coaching_video_gcs_path : String := ""
  deriving Repr

/-- Row of the `dish` table, restricted to the columns the pipeline reads. -/
structure Dish where
  name_ja : String := ""
  name_en : String := ""
  description_ja : String := ""
  principles : List Json := []
  deriving Repr

/-- Row of the `learnerstate` table (`backend/models/learner_state.py`);
`user_id` is the association-list key (unique constraint). -/
structure LearnerState where
  skills_acquired : List Json := []
  skills_developing : List Json := []
  recurring_mistakes : List Json := []
  session_summaries : List Json := []
  deriving Repr

/-- Row of the chat-room table (`backend/models/chat.py`). -/
structure ChatRoom where
  id : Nat
  user_id : Nat
  room_type : String
  deriving Repr

/-- Row of the message table (`backend/models/chat.py`). -/
structure Message where
  chat_room_id : Nat
  sender : String
  session_id : Option Nat
  text : String := ""
  video_gcs_path : String := ""
  deriving Repr

/-- The relational store. -/
structure DB where
  sessions : List (Nat × CookingSession) := []
  dishes : List (Nat × Dish) := []
  learner_states : List (Nat × LearnerState) := []
  chat_rooms : List ChatRoom := []
  messages : List Message := []
  deriving Repr

def lookupSession (db : DB) (sid : Nat) : Option CookingSession :=
  (db.sessions.find? (fun p => p.1 == sid)).map (fun p => p.2)

def setSession (db : DB) (sid : Nat) (s : CookingSession) : DB :=
  { db with sessions := db.sessions.map (fun p => if p.1 == sid then (p.1, s) else p) }

def lookupDish (db : DB) (did : Nat) : Option Dish :=
  (db.dishes.find? (fun p => p.1 == did)).map (fun p => p.2)

def lookupLearnerState (db : DB) (uid : Nat) : Option LearnerState :=
  (db.learner_states.find? (fun p => p.1 == uid)).map (fun p => p.2)

/-- Commit of a `LearnerState` row: update in place, or insert when the user
has none yet. -/
def saveLearnerState (db : DB) (uid : Nat) (ls : LearnerState) : DB :=
  if db.learner_states.any (fun p => p.1 == uid) then
    { db with learner_states := db.learner_states.map (fun p => if p.1 == uid then (p.1, ls) else p) }
  else
    { db with learner_states := db.learner_states ++ [(uid, ls)] }

/-! ## Shared DB helpers (`pipeline/stages/db_helpers.py`), embedded -/

/-- Embeds `get_session_with_dish`: load a session and its dish, raising
`ValueError` (as `Except.error`) when either row is missing. -/
def get_session_with_dish (db : DB) (sid : Nat) : Except String (CookingSession × Dish) :=
  match lookupSession db sid with
  | none => Except.error ("CookingSession " ++ toString sid ++ " not found")
  | some s =>
    match lookupDish db s.dish_id with
    | none => Except.error ("Dish " ++ toString s.dish_id ++ " not found")
    | some d => Except.ok (s, d)

/-- Embeds `update_session_fields`: set fields on a session and commit,
raising `ValueError` when the row is missing.  The Python keyword arguments
become the explicit record update `f` at each call site. -/
def update_session_fields (db : DB) (sid : Nat) (f : CookingSession → CookingSession) :
    Except String DB :=
  match lookupSession db sid with
  | none => Except.error ("CookingSession " ++ toString sid ++ " not found")
  | some s => Except.ok (setSession db sid (f s))

/-- Embeds `get_or_create_learner_state`: return the row for the user,
creating a default one when absent.  The `IntegrityError` retry for racing
inserts is the data-store serialization of the same outcome. -/
def get_or_create_learner_state (db : DB) (uid : Nat) : LearnerState × DB :=
  match lookupLearnerState db uid with
  | some ls => (ls, db)
  | none => ({}, saveLearnerState db uid {})

def getRoomByType (db : DB) (uid : Nat) (ty : String) : Option ChatRoom :=
  db.chat_rooms.find? (fun r => r.user_id == uid && r.room_type == ty)

/-- Embeds `get_coaching_room`: first coaching room of the user, raising when
none exists. -/
def get_coaching_room (db : DB) (uid : Nat) : Except String ChatRoom :=
  match getRoomByType db uid "coaching" with
  | none => Except.error ("Coaching room not found for user " ++ toString uid)
  | some r => Except.ok r

/-- Embeds `get_cooking_videos_room`. -/
def get_cooking_videos_room (db : DB) (uid : Nat) : Except String ChatRoom :=
  match getRoomByType db uid "cooking_videos" with
  | none => Except.error ("Cooking videos room not found for user " ++ toString uid)
  | some r => Except.ok r

/-- Embeds `post_message`: persist a message row. -/
def post_message (db : DB) (chat_room_id : Nat) (sender : String) (session_id : Option Nat)
    (text : String) (video_gcs_path : String) : DB :=
  { db with messages := db.messages ++
      [{ chat_room_id := chat_room_id, sender := sender, session_id := session_id,
         text := text, video_gcs_path := video_gcs_path }] }

/-! ## Idempotency gate and terminal status (`pipeline/functions.py`) -/

/-- Embeds `_check_and_set_processing_sync`: under the row lock (SELECT FOR
UPDATE — serialized, hence modelled as one atomic step), return `false`
untouched when the row is missing or its status is outside
`uploaded`/`failed`; otherwise set status to `processing`, commit, and return
`true`. -/
def _check_and_set_processing_sync (db : DB) (sid : Nat) : Bool × DB :=
  match lookupSession db sid with
  | none => (false, db)
  | some s =>
    if !(s.status == "uploaded" || s.status == "failed") then (false, db)
    else (true, setSession db sid { s with status := "processing" })

/-- Embeds `_set_terminal_status_sync`: when the row exists, overwrite the
status and `pipeline_error` (message on failure, empty string on success —
Python `error or ""`); when it does not, return with no mutation and no
error. -/
def _set_terminal_status_sync (db : DB) (sid : Nat) (new_status : String)
    (error : Option String) : DB :=
  match lookupSession db sid with
  | none => db
  | some s => setSession db sid { s with status := new_status, pipeline_error := error.getD "" }

/-! ## Stage functions (`pipeline/stages/*.py`), embedded

Each stage's blocking external calls appear as an environment record carrying
their outcomes; the DB side effects are state passing on `DB`. -/

/-- External-call outcomes of stage 0 (`voice_memo.py`): the GCS audio
download, the STT transcription (joined transcript), and the Gemini
entity-extraction response text. -/
structure VoiceEnv where
  download : Except String Unit := Except.ok ()
  stt : Except String String := Except.ok ""
  gemini : Except String String := Except.ok ""

/-- Return value of stage 0. -/
structure VoiceResult where
  voice_transcript : String
  structured_input : Json
  deriving Repr

/-- Embeds `run_voice_memo` (`pipeline/stages/voice_memo.py`): no-op with an
empty result when `voice_memo_url` is unset (Python falsiness: `None` or the
empty string); otherwise download, transcribe, extract entities with Gemini —
an unparsable extraction response is caught and replaced by the empty dict
(lines 62-65 of the source) — and persist transcript and structured input. -/
def run_voice_memo (env : VoiceEnv) (sid : Nat) (db : DB) : Except String VoiceResult × DB :=
  match get_session_with_dish db sid with
  | Except.error e => (Except.error e, db)
  | Except.ok (s, _) =>
    if s.voice_memo_url.getD "" == "" then
      (Except.ok { voice_transcript := "", structured_input := Json.obj [] }, db)
    else
      match env.download with
      | Except.error e => (Except.error e, db)
      | Except.ok _ =>
        match env.stt with
        | Except.error e => (Except.error e, db)
        | Except.ok transcript =>
          match env.gemini with
          | Except.error e => (Except.error e, db)
          | Except.ok text =>
            let structured_input :=
              match _parse_json_response text with
              | Except.ok j => j
              | Except.error _ => Json.obj []
            match update_session_fields db sid (fun s₁ =>
                { s₁ with voice_transcript := transcript,
                          structured_input := some structured_input }) with
            | Except.error e => (Except.error e, db)
            | Except.ok db₁ =>
              (Except.ok { voice_transcript := transcript,
                           structured_input := structured_input }, db₁)

/-- Required keys of stage 1 (`video_analysis.py`, `_REQUIRED_KEYS`). -/
def videoAnalysisRequiredKeys : List String :=
  ["cooking_events", "key_moment_timestamp", "key_moment_seconds", "diagnosis"]

/-- External-call outcome of stage 1: the whole GCS-download / Gemini-upload /
generate chain, resolved to the response text or the first exception. -/
structure VideoAnalysisEnv where
  gemini : Except String String := Except.ok ""

/-- Embeds `run_video_analysis` (`pipeline/stages/video_analysis.py`): call
Gemini on the video, parse the first JSON object of the response, raise on a
missing required key, and only then persist `video_analysis`. -/
def run_video_analysis (env : VideoAnalysisEnv) (sid : Nat) (db : DB) :
    Except String Json × DB :=
  match get_session_with_dish db sid with
  | Except.error e => (Except.error e, db)
  | Except.ok _ =>
    match env.gemini with
    | Except.error e => (Except.error e, db)
    | Except.ok text =>
      match _parse_json_response text with
      | Except.error e => (Except.error e, db)
      | Except.ok result =>
        let missing := videoAnalysisRequiredKeys.filter (fun k => !(jKeys result).contains k)
        if !missing.isEmpty then
          (Except.error ("Gemini response missing required keys: " ++ toString missing), db)
        else
          match update_session_fields db sid (fun s => { s with video_analysis := some result }) with
          | Except.error e => (Except.error e, db)
          | Except.ok db₁ => (Except.ok result, db₁)

/-- External-call outcomes of stage 2 (`rag.py`): the Gemini embedding call
and the pgvector top-3 similarity rows. -/
structure RagEnv where
  embed : Except String Unit := Except.ok ()
  rows : Except String (List String) := Except.ok []

/-- Return value of stage 2. -/
structure RagResult where
  principles : List String
  session_summaries : List Json
  deriving Repr

/-- Python `xs[-5:]`. -/
def takeLast (n : Nat) (xs : List Json) : List Json :=
  xs.drop (xs.length - n)

/-- Embeds `run_rag` (`pipeline/stages/rag.py`): embed the query (built from
session and dish fields, feeding only the external call), run the pgvector
search, then read — creating it if absent — the learner state and return its
last five session summaries. -/
def run_rag (env : RagEnv) (sid : Nat) (db : DB) : Except String RagResult × DB :=
  match get_session_with_dish db sid with
  | Except.error e => (Except.error e, db)
  | Except.ok (s, _) =>
    match env.embed with
    | Except.error e => (Except.error e, db)
    | Except.ok _ =>
      match env.rows with
      | Except.error e => (Except.error e, db)
      | Except.ok principles =>
        let p := get_or_create_learner_state db s.user_id
        (Except.ok { principles := principles,
                     session_summaries := takeLast 5 p.1.session_summaries }, p.2)

/-- Required keys of stage 3a (`coaching_script.py`, `_REQUIRED_KEYS`). -/
def coachingRequiredKeys : List String :=
  ["mondaiten", "skill", "next_action", "success_sign"]

/-- External-call outcome of stage 3a: the Gemini coaching-text response. -/
structure CoachEnv where
  gemini : Except String String := Except.ok ""

/-- Replace the first list element satisfying the predicate (the Python
list comprehension guarded by `m is matched`, where `matched` is the first
match). -/
def replaceFirst : List Json → (Json → Bool) → Json → List Json
  | [], _, _ => []
  | x :: xs, p, y => if p x then y :: xs else x :: replaceFirst xs p y

/-- Python `str()` of a decoded JSON value, as interpolated into the chat
message; the rendering of aggregates is approximate (no claim depends on the
rendered text). -/
def jStr : Json → String
  | Json.str s => s
  | Json.num q => toString q
  | Json.bool b => if b then "True" else "False"
  | Json.null => "None"
  | Json.arr _ => "[...]"
  | Json.obj _ => "\x7b...\x7d"

/-- Embeds `format_coaching_text` (`pipeline/stages/coaching_script.py`). -/
def format_coaching_text (coaching_text : Json) (session_number : Nat) : String :=
  "【第" ++ toString session_number ++ "回フィードバック】\n\n" ++
  "■ 今回の課題\n" ++ jStr (jGetD coaching_text "mondaiten" Json.null) ++ "\n\n" ++
  "■ 磨くべきスキル\n" ++ jStr (jGetD coaching_text "skill" Json.null) ++ "\n\n" ++
  "■ 次回への課題\n" ++ jStr (jGetD coaching_text "next_action" Json.null) ++ "\n\n" ++
  "■ うまくいったサイン\n" ++ jStr (jGetD coaching_text "success_sign" Json.null)

/-- The Python membership test of the idempotent-append guard in stage 3a:
`any(s.get("session_id") == session_id for s in summaries)`. -/
def summaryMatches (sid : Nat) (s : Json) : Bool :=
  jGet s "session_id" == some (Json.num sid)

/-- First half of stage 3a's locked LearnerState transaction: the guarded
summary append and the recurring-mistakes update (run only on the first pass
for this session).  `Except.error` is the `TypeError` Python raises when a
stored `count` is not a number, rolling the transaction back.
`coaching_text` has passed key validation, so the `Json.null` defaults of its
key accesses (Python `KeyError`) are dead. -/
def appendSummaryPart (ls : LearnerState) (sid : Nat) (coaching_text : Json)
    (diagnosis : Json) : Except String LearnerState :=
  let summaries := ls.session_summaries
  let already_processed := summaries.any (summaryMatches sid)
  if !already_processed then
    let newEntry := Json.obj [("session_id", Json.num sid),
      ("mondaiten", jGetD coaching_text "mondaiten" Json.null),
      ("skill", jGetD coaching_text "skill" Json.null)]
    let withSummary := { ls with session_summaries := summaries ++ [newEntry] }
    if jTruthy diagnosis then
      let existing := withSummary.recurring_mistakes
      match existing.find? (fun m => jGet m "text" == some diagnosis) with
      | some matched =>
        match jGetD matched "count" (Json.num 1) with
        | Json.num c =>
          let bumped := replaceFirst existing (fun m => jGet m "text" == some diagnosis)
            (matched.setKey "count" (Json.num (c + 1)))
          Except.ok { withSummary with recurring_mistakes := bumped }
        | _ => Except.error "TypeError: unsupported operand type(s) for +"
      | none =>
        let extended := existing ++ [Json.obj [("text", diagnosis), ("count", Json.num 1)]]
        Except.ok { withSummary with recurring_mistakes := extended }
    else
      Except.ok withSummary
  else
    Except.ok ls

/-- Second half of stage 3a's locked LearnerState transaction: the promotion
of `skill` from developing to acquired on session two onward, its tracking as
developing on session one. -/
def promoteSkillsPart (ls₁ : LearnerState) (session_number : Nat)
    (coaching_text : Json) : LearnerState :=
  let skill_val := jGetD coaching_text "skill" Json.null
  if session_number ≥ 2 then
    let developing := ls₁.skills_developing
    let acquired := ls₁.skills_acquired
    if developing.contains skill_val then
      let developing₁ := developing.erase skill_val
      let acquired₁ := if acquired.contains skill_val then acquired else acquired ++ [skill_val]
      { ls₁ with skills_developing := developing₁, skills_acquired := acquired₁ }
    else
      { ls₁ with skills_developing := developing, skills_acquired := acquired }
  else
    let developing := ls₁.skills_developing
    if developing.contains skill_val then
      { ls₁ with skills_developing := developing }
    else
      { ls₁ with skills_developing := developing ++ [skill_val] }

/-- Embeds the body of stage 3a's locked LearnerState transaction (step 3 of
`run_coaching_script`): the guarded summary append, the recurring-mistakes
update, then the skills promotion.  The surrounding `with` block commits at
its end or rolls back on an exception, so the caller applies the whole update
atomically. -/
def run_ls_update (ls : LearnerState) (sid : Nat) (session_number : Nat)
    (coaching_text : Json) (diagnosis : Json) : Except String LearnerState :=
  match appendSummaryPart ls sid coaching_text diagnosis with
  | Except.error e => Except.error e
  | Except.ok ls₁ => Except.ok (promoteSkillsPart ls₁ session_number coaching_text)

/-- Embeds `run_coaching_script` (`pipeline/stages/coaching_script.py`):
generate the coaching text (the read-only LearnerState snapshot of step 1
feeds only the prompt, absorbed into `env.gemini`), parse it, validate the
required keys, apply the locked LearnerState update atomically, persist
`coaching_text` and the `text_ready` status, and post the two chat
messages. -/
def run_coaching_script (env : CoachEnv) (sid : Nat) (_retrieved_context : RagResult) (db : DB) :
    Except String Json × DB :=
  match get_session_with_dish db sid with
  | Except.error e => (Except.error e, db)
  | Except.ok (s, _) =>
    match env.gemini with
    | Except.error e => (Except.error e, db)
    | Except.ok text =>
      match _parse_json_response text with
      | Except.error e => (Except.error e, db)
      | Except.ok coaching_text =>
        let missing := coachingRequiredKeys.filter (fun k => !(jKeys coaching_text).contains k)
        if !missing.isEmpty then
          (Except.error ("Gemini response missing required keys: " ++ toString missing), db)
        else
          let ls₀ := (lookupLearnerState db s.user_id).getD {}
          let diagnosis := jGetD ((s.video_analysis).getD (Json.obj [])) "diagnosis" (Json.str "")
          match run_ls_update ls₀ sid s.session_number coaching_text diagnosis with
          | Except.error e => (Except.error e, db)
          | Except.ok ls₁ =>
            let db₁ := saveLearnerState db s.user_id ls₁
            match update_session_fields db₁ sid (fun s₂ =>
                { s₂ with coaching_text := some coaching_text, status := "text_ready" }) with
            | Except.error e => (Except.error e, db₁)
            | Except.ok db₂ =>
              match get_coaching_room db₂ s.user_id with
              | Except.error e => (Except.error e, db₂)
              | Except.ok room =>
                let db₃ := post_message db₂ room.id "ai" (some sid)
                  (format_coaching_text coaching_text s.session_number) ""
                match get_cooking_videos_room db₃ s.user_id with
                | Except.error e => (Except.error e, db₃)
                | Except.ok vroom =>
                  let db₄ := post_message db₃ vroom.id "system" (some sid) "" s.raw_video_url
                  (Except.ok coaching_text, db₄)

/-- Fixed pivot phrase of stage 3b (`narration_script.py`, `PIVOT_LINE`). -/
def PIVOT_LINE : String := "動画を使ってそのポイントを見てみましょう"

/-- Required keys of stage 3b (`narration_script.py`, `_REQUIRED_KEYS`). -/
def narrationRequiredKeys : List String := ["part1", "pivot", "part2"]

/-- External-call outcome of stage 3b: the Gemini narration response.  The
upstream coaching text feeds only the prompt, absorbed here. -/
structure NarrationEnv where
  gemini : Except String String := Except.ok ""

/-- Embeds `run_narration_script` (`pipeline/stages/narration_script.py`):
parse the response, always override `pivot` with `PIVOT_LINE`, validate the
required keys, and persist `narration_script`. -/
def run_narration_script (env : NarrationEnv) (sid : Nat) (db : DB) :
    Except String Json × DB :=
  match get_session_with_dish db sid with
  | Except.error e => (Except.error e, db)
  | Except.ok _ =>
    match env.gemini with
    | Except.error e => (Except.error e, db)
    | Except.ok text =>
      match _parse_json_response text with
      | Except.error e => (Except.error e, db)
      | Except.ok parsed =>
        let narration := parsed.setKey "pivot" (Json.str PIVOT_LINE)
        let missing := narrationRequiredKeys.filter (fun k => !(jKeys narration).contains k)
        if !missing.isEmpty then
          (Except.error ("Narration script response missing required keys: " ++ toString missing), db)
        else
          match update_session_fields db sid (fun s => { s with narration_script := some narration }) with
          | Except.error e => (Except.error e, db)
          | Except.ok db₁ => (Except.ok narration, db₁)

/-- Python `float()` coercion on a decoded JSON value, as applied to
`key_moment_seconds`; `none` is the `TypeError`/`ValueError` the source
catches.  Numeric strings, which `float()` would also accept, are outside the
model (the prompt requests a number and no claim exercises a string here). -/
def jAsFloat : Json → Option ℚ
  | Json.num q => some q
  | Json.bool b => some (if b then 1 else 0)
  | _ => none

/-- The `try` block of `_calculate_clamped_key_moment`
(`pipeline/stages/video_production.py`):
`max(0.0, float((session.video_analysis or \x7b\x7d).get("key_moment_seconds", 0) or 0))`
with `TypeError`/`ValueError` caught to `0.0`. -/
def keyMomentOf (video_analysis : Option Json) : ℚ :=
  let v := jGetD (video_analysis.getD (Json.obj [])) "key_moment_seconds" (Json.num 0)
  let v₁ := if jTruthy v then v else Json.num 0
  match jAsFloat v₁ with
  | some q => max 0 q
  | none => 0

/-- Embeds `_calculate_clamped_key_moment`
(`pipeline/stages/video_production.py`): the proposed key moment, clamped so
the fixed 30-second clip fits within the video.  The source obtains
`raw_duration` by probing the downloaded file; the probe's outcome is threaded
in by `run_video_production`. -/
def _calculate_clamped_key_moment (video_analysis : Option Json) (raw_duration : ℚ) : ℚ :=
  min (keyMomentOf video_analysis) (max 0 (raw_duration - 30))

/-- External-call outcomes of stage 4 (`video_production.py`): the GCS
download of the raw video, the two TTS syntheses, the ffprobe duration of the
raw video, the FFmpeg composition steps (intro, clip, key-moment segment,
concat — folded, each a hard failure with captured stderr), and the GCS
upload. -/
structure ProductionEnv where
  download : Except String Unit := Except.ok ()
  tts1 : Except String Unit := Except.ok ()
  tts2 : Except String Unit := Except.ok ()
  probe : Except String ℚ := Except.ok 0
  ffmpeg : Except String Unit := Except.ok ()
  upload : Except String Unit := Except.ok ()

/-- Embeds `run_video_production` (`pipeline/stages/video_production.py`):
download the raw video, synthesize both narration parts (a missing script key
is a `KeyError`), clamp the key moment against the probed duration, compose
and upload the coaching video, post it to the coaching room, and persist
`coaching_video_gcs_path` as the last action. -/
def run_video_production (env : ProductionEnv) (sid : Nat) (narration_script : Json) (db : DB) :
    Except String String × DB :=
  match get_session_with_dish db sid with
  | Except.error e => (Except.error e, db)
  | Except.ok (s, _) =>
    match env.download with
    | Except.error e => (Except.error e, db)
    | Except.ok _ =>
      match jGet narration_script "part1" with
      | none => (Except.error "KeyError: part1", db)
      | some _ =>
        match env.tts1 with
        | Except.error e => (Except.error e, db)
        | Except.ok _ =>
          match jGet narration_script "part2" with
          | none => (Except.error "KeyError: part2", db)
          | some _ =>
            match env.tts2 with
            | Except.error e => (Except.error e, db)
            | Except.ok _ =>
              match env.probe with
              | Except.error e => (Except.error e, db)
              | Except.ok raw_duration =>
                let key_moment := _calculate_clamped_key_moment s.video_analysis raw_duration
                match env.ffmpeg with
                | Except.error e => (Except.error e, db)
                | Except.ok _ =>
                  match env.upload with
                  | Except.error e => (Except.error e, db)
                  | Except.ok _ =>
                    let _ := key_moment
                    let gcs_path := "sessions/" ++ toString sid ++ "/coaching_video.mp4"
                    match get_coaching_room db s.user_id with
                    | Except.error e => (Except.error e, db)
                    | Except.ok room =>
                      let db₁ := post_message db room.id "ai" (some sid) "" gcs_path
                      match update_session_fields db₁ sid (fun s₁ =>
                          { s₁ with coaching_video_gcs_path := gcs_path }) with
                      | Except.error e => (Except.error e, db₁)
                      | Except.ok db₂ => (Except.ok gcs_path, db₂)

/-! ## Orchestrator (`cooking_pipeline` in `pipeline/functions.py`), embedded

The Inngest engine's step memoization and retry are outside the orchestration
logic (spec §1); one invocation of `cooking_pipeline` is one run.  The two
terminal-status steps can themselves raise (a database failure while
committing); their outcomes are the `markCompletedFail`/`markFailedFail`
environment fields, `some msg` meaning the write raises `msg` and commits
nothing. -/

/-- Environment of one pipeline run: each stage's external-call outcomes and
the terminal-status writes' outcomes. -/
structure PipelineEnv where
  stage0 : VoiceEnv := {}
  stage1 : VideoAnalysisEnv := {}
  stage2 : RagEnv := {}
  stage3a : CoachEnv := {}
  stage3b : NarrationEnv := {}
  stage4 : ProductionEnv := {}
  markCompletedFail : Option String := none
  markFailedFail : Option String := none

/-- The `except` clause of `cooking_pipeline`: persist the `failed` status
with the original exception's message; a secondary failure of that write is
logged and swallowed, and the original exception is always re-raised. -/
def runMarkFailed (env : PipelineEnv) (sid : Nat) (e : String) (db : DB) :
    Except String Unit × DB :=
  match env.markFailedFail with
  | some _ => (Except.error e, db)
  | none => (Except.error e, _set_terminal_status_sync db sid "failed" (some e))

/-- Embeds `cooking_pipeline` (`pipeline/functions.py`): validate the payload
(`none` models a non-integer field — logged and dropped), run the idempotency
gate and return silently when it refuses, then run the six stages in order;
on success run `mark-completed` (clearing `pipeline_error`), on any stage
exception run `mark-failed` and re-raise the original exception.  A
`mark-completed` failure is raised inside the `try` block, so it takes the
`mark-failed` path with its own message. -/
def cooking_pipeline (env : PipelineEnv) (session_id : Option Nat) (user_id : Option Nat)
    (db : DB) : Except String Unit × DB :=
  match session_id with
  | none => (Except.ok (), db)
  | some sid =>
    match user_id with
    | none => (Except.ok (), db)
    | some _uid =>
      let gate := _check_and_set_processing_sync db sid
      if !gate.1 then (Except.ok (), gate.2)
      else
        match run_voice_memo env.stage0 sid gate.2 with
        | (Except.error e, db₁) => runMarkFailed env sid e db₁
        | (Except.ok _, db₁) =>
          match run_video_analysis env.stage1 sid db₁ with
          | (Except.error e, db₂) => runMarkFailed env sid e db₂
          | (Except.ok _, db₂) =>
            match run_rag env.stage2 sid db₂ with
            | (Except.error e, db₃) => runMarkFailed env sid e db₃
            | (Except.ok retrieved_context, db₃) =>
              match run_coaching_script env.stage3a sid retrieved_context db₃ with
              | (Except.error e, db₄) => runMarkFailed env sid e db₄
              | (Except.ok _coaching_text, db₄) =>
                match run_narration_script env.stage3b sid db₄ with
                | (Except.error e, db₅) => runMarkFailed env sid e db₅
                | (Except.ok narration, db₅) =>
                  match run_video_production env.stage4 sid narration db₅ with
                  | (Except.error e, db₆) => runMarkFailed env sid e db₆
                  | (Except.ok _, db₆) =>
                    match env.markCompletedFail with
                    | some m => runMarkFailed env sid m db₆
                    | none => (Except.ok (), _set_terminal_status_sync db₆ sid "completed" none)

/-! ## Derived definitions and concrete fixtures used by the verification -/

/-- The session fields owned by the not-yet-run stages 3a, 3b and 4. -/
def laterOutputs (s : CookingSession) : Option Json × Option Json × String :=
  (s.coaching_text, s.narration_script, s.coaching_video_gcs_path)

/-- The session fields owned by stages 1-4, untouched by a stage-0 failure. -/
def outputsFromStage1 (s : CookingSession) :
    Option Json × Option Json × Option Json × String :=
  (s.video_analysis, s.coaching_text, s.narration_script, s.coaching_video_gcs_path)

/-- The session fields owned by stages 3b and 4, untouched by a stage-3a
failure. -/
def outputsFromStage3b (s : CookingSession) : Option Json × String :=
  (s.narration_script, s.coaching_video_gcs_path)

/-- The session field owned by stage 4, untouched by a stage-3b failure. -/
def outputsFromStage4 (s : CookingSession) : String :=
  s.coaching_video_gcs_path

/-- Number of `session_summaries` entries for a session id in a user's
LearnerState row. -/
def summaryCount (db : DB) (uid sid : Nat) : Nat :=
  match lookupLearnerState db uid with
  | none => 0
  | some ls => ls.session_summaries.countP (summaryMatches sid)

def voiceSessionFix : CookingSession :=
  { user_id := 7, dish_id := 3, session_number := 1, status := "processing",
    raw_video_url := "raw.mp4", voice_memo_url := some "memo.m4a" }

def voiceDbFix : DB := { sessions := [(1, voiceSessionFix)], dishes := [(3, {})] }

def voiceEnvFix : VoiceEnv := { stt := Except.ok "transcript", gemini := Except.ok "not json" }

/-- Whether a decoded JSON value is an object (a Python `dict`). -/
def Json.isObj : Json → Bool
  | Json.obj _ => true
  | _ => false

def braceTextFix : String :=
  String.mk ['a', '{', 'b', '}', ' ', '{', '"', 'k', '"', ':', ' ', 't', 'r', 'u', 'e', '}']

def emptyDbFix : DB := {}

def completedSessionFix : CookingSession :=
  { user_id := 7, dish_id := 3, session_number := 1, status := "completed" }

def completedDbFix : DB := { sessions := [(2, completedSessionFix)], dishes := [(3, {})] }

def uploadedSessionFix : CookingSession :=
  { user_id := 7, dish_id := 3, session_number := 1, status := "uploaded",
    raw_video_url := "raw.mp4", pipeline_error := "old error" }

def fullDbFix : DB :=
  { sessions := [(1, uploadedSessionFix)], dishes := [(3, {})],
    chat_rooms := [{ id := 10, user_id := 7, room_type := "coaching" },
                   { id := 11, user_id := 7, room_type := "cooking_videos" }] }

def respVideoFix : String :=
  "\x7b\x22cooking_events\x22: [], \x22key_moment_timestamp\x22: \x22t\x22, \x22key_moment_seconds\x22: \x22ten\x22, \x22diagnosis\x22: \x22dx\x22\x7d"

def coachRespFix : String :=
  "\x7b\x22mondaiten\x22: \x22m\x22, \x22skill\x22: \x22s\x22, \x22next_action\x22: \x22n\x22, \x22success_sign\x22: \x22ok\x22\x7d"

def respNarrationFix : String :=
  "\x7b\x22part1\x22: \x22p1\x22, \x22pivot\x22: \x22model pivot\x22, \x22part2\x22: \x22p2\x22\x7d"

def narrationResultFix : Json :=
  Json.obj [("part1", Json.str "p1"), ("pivot", Json.str PIVOT_LINE), ("part2", Json.str "p2")]

def ragResultFix : RagResult := { principles := [], session_summaries := [] }

def coachEnvFix : CoachEnv := { gemini := Except.ok coachRespFix }

def narrationEnvFix : NarrationEnv := { gemini := Except.ok respNarrationFix }

def pipelineEnvFix : PipelineEnv :=
  { stage1 := { gemini := Except.ok respVideoFix },
    stage3a := { gemini := Except.ok coachRespFix },
    stage3b := { gemini := Except.ok respNarrationFix } }

def failEnvFix : PipelineEnv :=
  { stage1 := { gemini := Except.ok respVideoFix },
    stage2 := { embed := Except.error "boom" } }

/-! ## Lemmas and claim theorems -/



theorem assoc_set_same {α : Type} (l : List (Nat × α)) (k : Nat) (x : α)
    (h : (l.find? (fun p => p.1 == k)).isSome) :
    (l.map (fun p => if p.1 == k then (p.1, x) else p)).find? (fun p => p.1 == k) =
      some (k, x) := by
  induction l with
  | nil => simp at h
  | cons hd tl ih =>
    obtain ⟨a, b⟩ := hd
    by_cases hak : a = k
    · subst hak
      rw [List.map_cons, if_pos (beq_self_eq_true a)]
      rw [List.find?_cons_of_pos _ (by simp)]
    · have hb : (a == k) = false := beq_eq_false_iff_ne.mpr hak
      rw [List.find?_cons_of_neg _ (by simp [hb])] at h
      rw [List.map_cons, if_neg (by simp [hb])]
      rw [List.find?_cons_of_neg _ (by simp [hb])]
      exact ih h

theorem assoc_set_other {α : Type} (l : List (Nat × α)) (k j : Nat) (x : α) (hjk : j ≠ k) :
    (l.map (fun p => if p.1 == k then (p.1, x) else p)).find? (fun p => p.1 == j) =
      l.find? (fun p => p.1 == j) := by
  induction l with
  | nil => rfl
  | cons hd tl ih =>
    obtain ⟨a, b⟩ := hd
    by_cases hak : a = k
    · subst hak
      have hj : (a == j) = false := beq_eq_false_iff_ne.mpr (fun h => hjk (h ▸ rfl))
      rw [List.map_cons, if_pos (beq_self_eq_true a)]
      rw [List.find?_cons_of_neg _ (by simp [hj]), List.find?_cons_of_neg _ (by simp [hj])]
      exact ih
    · have hb : (a == k) = false := beq_eq_false_iff_ne.mpr hak
      rw [List.map_cons, if_neg (by simp [hb])]
      by_cases haj : a = j
      · subst haj
        rw [List.find?_cons_of_pos _ (by simp),
          List.find?_cons_of_pos _ (by simp)]
      · have hj : (a == j) = false := beq_eq_false_iff_ne.mpr haj
        rw [List.find?_cons_of_neg _ (by simp [hj]), List.find?_cons_of_neg _ (by simp [hj])]
        exact ih

theorem assoc_set_absent {α : Type} (l : List (Nat × α)) (k : Nat) (x : α)
    (h : l.find? (fun p => p.1 == k) = none) :
    l.map (fun p => if p.1 == k then (p.1, x) else p) = l := by
  induction l with
  | nil => rfl
  | cons hd tl ih =>
    obtain ⟨a, b⟩ := hd
    by_cases hak : a = k
    · subst hak
      rw [List.find?_cons_of_pos _ (by simp)] at h
      exact absurd h (by simp)
    · have hb : (a == k) = false := beq_eq_false_iff_ne.mpr hak
      rw [List.find?_cons_of_neg _ (by simp [hb])] at h
      rw [List.map_cons, if_neg (by simp [hb]), ih h]

theorem lookupSession_setSession_same (db : DB) (k : Nat) (x s : CookingSession)
    (h : lookupSession db k = some s) :
    lookupSession (setSession db k x) k = some x := by
  unfold lookupSession at h ⊢
  unfold setSession
  rw [assoc_set_same]
  · rfl
  · cases hf : db.sessions.find? (fun p => p.1 == k) with
    | none => rw [hf] at h; simp at h
    | some p => simp [hf]

theorem lookupSession_setSession_other (db : DB) (k j : Nat) (x : CookingSession)
    (hjk : j ≠ k) :
    lookupSession (setSession db k x) j = lookupSession db j := by
  unfold lookupSession setSession
  rw [assoc_set_other _ _ _ _ hjk]

theorem lookupSession_setSession_isSome (db : DB) (k j : Nat) (x : CookingSession) :
    (lookupSession (setSession db k x) j).isSome = (lookupSession db j).isSome := by
  by_cases hjk : j = k
  · subst hjk
    cases h : lookupSession db j with
    | none =>
      have hf : db.sessions.find? (fun p => p.1 == j) = none := by
        unfold lookupSession at h
        cases hf : db.sessions.find? (fun p => p.1 == j) with
        | none => rfl
        | some p => rw [hf] at h; simp at h
      unfold lookupSession setSession
      rw [assoc_set_absent _ _ _ hf]
      simp [hf]
    | some s =>
      rw [lookupSession_setSession_same db j x s h]
      simp
  · rw [lookupSession_setSession_other db k j x hjk]

theorem lookupSession_saveLearnerState (db : DB) (u j : Nat) (ls : LearnerState) :
    lookupSession (saveLearnerState db u ls) j = lookupSession db j := by
  unfold lookupSession saveLearnerState
  split <;> rfl

theorem lookupSession_post_message (db : DB) (rid : Nat) (snd : String) (sid : Option Nat)
    (t g : String) (j : Nat) :
    lookupSession (post_message db rid snd sid t g) j = lookupSession db j := rfl

theorem lookupLearnerState_setSession (db : DB) (k : Nat) (x : CookingSession) (j : Nat) :
    lookupLearnerState (setSession db k x) j = lookupLearnerState db j := rfl

theorem lookupLearnerState_post_message (db : DB) (rid : Nat) (snd : String) (sid : Option Nat)
    (t g : String) (j : Nat) :
    lookupLearnerState (post_message db rid snd sid t g) j = lookupLearnerState db j := rfl

theorem lookupLearnerState_save_same (db : DB) (u : Nat) (ls : LearnerState) :
    lookupLearnerState (saveLearnerState db u ls) u = some ls := by
  unfold lookupLearnerState saveLearnerState
  split
  · next hany =>
    rw [assoc_set_same]
    · rfl
    · rw [List.find?_isSome]
      simpa using hany
  · next hany =>
    have hnone : db.learner_states.find? (fun p => p.1 == u) = none := by
      rw [← Option.not_isSome_iff_eq_none, List.find?_isSome]
      simpa using hany
    simp only []
    rw [List.find?_append, hnone]
    simp [List.find?_cons_of_pos _ (by simp : ((fun p => p.1 == u) (u, ls)) = true)]

theorem lookupLearnerState_save_other (db : DB) (u j : Nat) (ls : LearnerState) (hju : j ≠ u) :
    lookupLearnerState (saveLearnerState db u ls) j = lookupLearnerState db j := by
  unfold lookupLearnerState saveLearnerState
  split
  · rw [assoc_set_other _ _ _ _ hju]
  · rw [List.find?_append]
    rw [List.find?_cons_of_neg _ (by simp; omega)]
    rw [List.find?_nil]
    cases db.learner_states.find? (fun p => p.1 == j) <;> rfl

theorem update_session_fields_ok_inv (db : DB) (sid : Nat) (f : CookingSession → CookingSession)
    (db' : DB) (h : update_session_fields db sid f = Except.ok db') :
    ∃ s, lookupSession db sid = some s ∧ db' = setSession db sid (f s) := by
  unfold update_session_fields at h
  cases hl : lookupSession db sid with
  | none => rw [hl] at h; exact absurd h (by simp)
  | some s =>
    rw [hl] at h
    refine ⟨s, rfl, ?_⟩
    injection h with h₁
    exact h₁.symm

theorem gate_true_inv (db : DB) (sid : Nat) (db₀ : DB)
    (h : _check_and_set_processing_sync db sid = (true, db₀)) :
    ∃ s, lookupSession db sid = some s ∧ (s.status = "uploaded" ∨ s.status = "failed") ∧
      db₀ = setSession db sid { s with status := "processing" } := by
  unfold _check_and_set_processing_sync at h
  cases hl : lookupSession db sid with
  | none => rw [hl] at h; exact absurd h (by simp)
  | some s =>
    rw [hl] at h
    dsimp only at h
    by_cases hst : s.status = "uploaded" ∨ s.status = "failed"
    · refine ⟨s, rfl, hst, ?_⟩
      have hb : (s.status == "uploaded" || s.status == "failed") = true := by
        rcases hst with h₁ | h₁ <;> simp [h₁]
      rw [hb] at h
      simp at h
      exact h.symm
    · have hb : (s.status == "uploaded" || s.status == "failed") = false := by
        push_neg at hst
        simp [hst.1, hst.2]
      rw [hb] at h
      simp at h

theorem laterOutputs_setSession (db : DB) (k j : Nat) (s x : CookingSession)
    (hs : lookupSession db k = some s) (hx : laterOutputs x = laterOutputs s) :
    (lookupSession (setSession db k x) j).map laterOutputs =
    (lookupSession db j).map laterOutputs := by
  by_cases hjk : j = k
  · subst hjk
    rw [lookupSession_setSession_same db j x s hs, hs]
    simp [hx]
  · rw [lookupSession_setSession_other db k j x hjk]

theorem laterOutputs_after_update {db db' : DB} {sid : Nat} {f : CookingSession → CookingSession}
    (h : update_session_fields db sid f = Except.ok db')
    (hf : ∀ s, laterOutputs (f s) = laterOutputs s) (j : Nat) :
    (lookupSession db' j).map laterOutputs = (lookupSession db j).map laterOutputs := by
  obtain ⟨s, hs, rfl⟩ := update_session_fields_ok_inv _ _ _ _ h
  exact laterOutputs_setSession db sid j s _ hs (hf s)

theorem run_voice_memo_frame (env : VoiceEnv) (sid : Nat) (db : DB) (j : Nat) :
    (lookupSession (run_voice_memo env sid db).2 j).map laterOutputs =
    (lookupSession db j).map laterOutputs := by
  unfold run_voice_memo
  dsimp only
  repeat' split
  all_goals dsimp only
  all_goals first
    | rfl
    | exact laterOutputs_after_update (by assumption) (by intro s; rfl) j

theorem run_video_analysis_frame (env : VideoAnalysisEnv) (sid : Nat) (db : DB) (j : Nat) :
    (lookupSession (run_video_analysis env sid db).2 j).map laterOutputs =
    (lookupSession db j).map laterOutputs := by
  unfold run_video_analysis
  dsimp only
  repeat' split
  all_goals dsimp only
  all_goals first
    | rfl
    | exact laterOutputs_after_update (by assumption) (by intro s; rfl) j

theorem run_rag_sessions (env : RagEnv) (sid : Nat) (db : DB) (j : Nat) :
    lookupSession (run_rag env sid db).2 j = lookupSession db j := by
  unfold run_rag get_or_create_learner_state
  dsimp only
  repeat' split
  all_goals try rfl
  exact (lookupSession_saveLearnerState _ _ _ _)

theorem isSome_after_update {db db' : DB} {sid : Nat} {f : CookingSession → CookingSession}
    (h : update_session_fields db sid f = Except.ok db') (j : Nat) :
    (lookupSession db' j).isSome = (lookupSession db j).isSome := by
  obtain ⟨s, hs, rfl⟩ := update_session_fields_ok_inv _ _ _ _ h
  exact lookupSession_setSession_isSome db sid j (f s)

theorem run_coaching_script_isSome (env : CoachEnv) (sid : Nat) (ctx : RagResult) (db : DB)
    (j : Nat) :
    (lookupSession (run_coaching_script env sid ctx db).2 j).isSome =
    (lookupSession db j).isSome := by
  unfold run_coaching_script
  dsimp only
  repeat' split
  all_goals dsimp only
  all_goals first
    | rfl
    | simp only [lookupSession_saveLearnerState]
    | (rw [lookupSession_post_message, lookupSession_post_message,
        isSome_after_update (by assumption) j]
       simp only [lookupSession_saveLearnerState])
    | (rw [lookupSession_post_message, isSome_after_update (by assumption) j]
       simp only [lookupSession_saveLearnerState])
    | (rw [isSome_after_update (by assumption) j]
       simp only [lookupSession_saveLearnerState])

theorem run_narration_script_isSome (env : NarrationEnv) (sid : Nat) (db : DB) (j : Nat) :
    (lookupSession (run_narration_script env sid db).2 j).isSome =
    (lookupSession db j).isSome := by
  unfold run_narration_script
  dsimp only
  repeat' split
  all_goals dsimp only
  all_goals first
    | rfl
    | exact isSome_after_update (by assumption) j

theorem run_video_production_isSome (env : ProductionEnv) (sid : Nat) (ns : Json) (db : DB)
    (j : Nat) :
    (lookupSession (run_video_production env sid ns db).2 j).isSome =
    (lookupSession db j).isSome := by
  unfold run_video_production
  dsimp only
  repeat' split
  all_goals dsimp only
  all_goals first
    | rfl
    | simp only [lookupSession_post_message]
    | (rw [isSome_after_update (by assumption) j]
       simp only [lookupSession_post_message])

theorem set_terminal_lookup (db : DB) (sid : Nat) (st : String) (err : Option String)
    (s : CookingSession) (h : lookupSession db sid = some s) :
    lookupSession (_set_terminal_status_sync db sid st err) sid =
      some { s with status := st, pipeline_error := err.getD "" } := by
  unfold _set_terminal_status_sync
  rw [h]
  exact lookupSession_setSession_same db sid _ s h

/-- C1: Idempotency Gate contract.  For every session id, the gate check
returns `false` and mutates nothing when no session row with that id exists or
when the row's status is neither `uploaded` nor `failed` (in particular for
`completed` or `processing`); otherwise it returns `true` and commits exactly
the status change to `processing`, leaving every other row untouched. -/
theorem gate_contract (db : DB) (sid : Nat) :
    (lookupSession db sid = none → _check_and_set_processing_sync db sid = (false, db)) ∧
    (∀ s, lookupSession db sid = some s → s.status ≠ "uploaded" → s.status ≠ "failed" →
      _check_and_set_processing_sync db sid = (false, db)) ∧
    (∀ s, lookupSession db sid = some s → (s.status = "uploaded" ∨ s.status = "failed") →
      (_check_and_set_processing_sync db sid).1 = true ∧
      lookupSession (_check_and_set_processing_sync db sid).2 sid =
        some { s with status := "processing" } ∧
      ∀ j, j ≠ sid →
        lookupSession (_check_and_set_processing_sync db sid).2 j = lookupSession db j) := by
  refine ⟨?_, ?_, ?_⟩
  · intro h
    unfold _check_and_set_processing_sync
    rw [h]
  · intro s h h₁ h₂
    unfold _check_and_set_processing_sync
    rw [h]
    have hb : (s.status == "uploaded" || s.status == "failed") = false := by simp [h₁, h₂]
    simp [hb]
  · intro s h hst
    have hb : (s.status == "uploaded" || s.status == "failed") = true := by
      rcases hst with h₁ | h₁ <;> simp [h₁]
    have hg : _check_and_set_processing_sync db sid =
        (true, setSession db sid { s with status := "processing" }) := by
      unfold _check_and_set_processing_sync
      rw [h]
      simp [hb]
    refine ⟨by rw [hg], ?_, ?_⟩
    · rw [hg]
      exact lookupSession_setSession_same db sid _ s h
    · intro j hj
      rw [hg]
      exact lookupSession_setSession_other db sid j _ hj

/-- C9: Idempotency Gate exclusivity.  For every session in state `uploaded`,
of two concurrent gate checks on the same session id — serialized by the
SELECT FOR UPDATE row lock, hence modelled as the two sequential executions —
exactly one returns `true`: the first returns `true` and the second `false`,
so at most one run holds status `processing` for a given session. -/
theorem gate_exclusivity (db : DB) (sid : Nat) (s : CookingSession)
    (h : lookupSession db sid = some s) (hs : s.status = "uploaded") :
    (_check_and_set_processing_sync db sid).1 = true ∧
    (_check_and_set_processing_sync (_check_and_set_processing_sync db sid).2 sid).1 = false := by
  have hg : _check_and_set_processing_sync db sid =
      (true, setSession db sid { s with status := "processing" }) := by
    unfold _check_and_set_processing_sync
    rw [h]
    simp [hs]
  have h₂ : lookupSession (setSession db sid { s with status := "processing" }) sid =
      some { s with status := "processing" } :=
    lookupSession_setSession_same db sid _ s h
  constructor
  · rw [hg]
  · rw [hg]
    unfold _check_and_set_processing_sync
    rw [h₂]
    simp

/-- C10: terminal-status write tolerates a missing row.  For every session id
with no matching session row, `_set_terminal_status_sync` — used by both the
mark-completed and the mark-failed steps — returns without raising (the
embedding is a total function into `DB`, mirroring the source's lack of any
raise path) and mutates nothing, so a terminal transition for a session
deleted mid-run is silently dropped. -/
theorem set_terminal_missing_row (db : DB) (sid : Nat) (st : String) (err : Option String)
    (h : lookupSession db sid = none) :
    _set_terminal_status_sync db sid st err = db := by
  unfold _set_terminal_status_sync
  rw [h]

/-- C7: key-moment clamping.  For every source video of duration `D` and
every proposed key-moment start `K`, the clip start computed by
`_calculate_clamped_key_moment` equals `min (max 0 K) (max 0 (D - 30))`; in
particular for every `K ≥ D - 30` with `K ≥ 0` the start is `max 0 (D - 30)`,
so the fixed 30-second clip never runs past the end of the video. -/
theorem key_moment_clamping (K D : ℚ) :
    _calculate_clamped_key_moment (some (Json.obj [("key_moment_seconds", Json.num K)])) D =
      min (max 0 K) (max 0 (D - 30)) ∧
    (D - 30 ≤ K → 0 ≤ K →
      _calculate_clamped_key_moment (some (Json.obj [("key_moment_seconds", Json.num K)])) D =
        max 0 (D - 30)) := by
  have h₁ : _calculate_clamped_key_moment
      (some (Json.obj [("key_moment_seconds", Json.num K)])) D =
      min (max 0 K) (max 0 (D - 30)) := by
    by_cases hK : K = 0
    · subst hK
      simp [_calculate_clamped_key_moment, keyMomentOf, jGetD, jGet, jTruthy, jAsFloat]
    · simp [_calculate_clamped_key_moment, keyMomentOf, jGetD, jGet, jTruthy, jAsFloat, hK]
  refine ⟨h₁, fun hDK hK0 => ?_⟩
  rw [h₁]
  rw [min_eq_right]
  exact max_le (le_max_left 0 K) (le_trans hDK (le_max_right 0 K))

theorem jGet_insertKV (kvs : List (String × Json)) (k : String) (v : Json) :
    ((insertKV kvs k v).find? (fun p => p.1 == k)).map (fun p => p.2) = some v := by
  induction kvs with
  | nil => simp [insertKV]
  | cons hd tl ih =>
    obtain ⟨k₁, v₁⟩ := hd
    by_cases hk : (k₁ == k) = true
    · simp only [insertKV, hk, if_true]
      simp [List.find?_cons, hk]
    · have hk₁ : (k₁ == k) = false := by rw [Bool.not_eq_true] at hk; exact hk
      simp only [insertKV, hk₁, Bool.false_eq_true, if_false]
      rw [List.find?_cons_of_neg _ (by simp [hk₁])]
      exact ih

theorem jGet_setKey_obj (kvs : List (String × Json)) (k : String) (v : Json) :
    jGet ((Json.obj kvs).setKey k v) k = some v := by
  simp only [Json.setKey, jGet]
  exact jGet_insertKV kvs k v

/-- C6: narration pivot override.  For every AI-returned narration JSON —
including one whose `pivot` is absent or a different string — the dict
returned by `run_narration_script` has `pivot` equal to the fixed canonical
phrase `PIVOT_LINE`, and the value persisted as `narration_script` is that
same dict. -/
theorem narration_pivot_override (env : NarrationEnv) (sid : Nat) (db : DB) (nar : Json)
    (db' : DB) (h : run_narration_script env sid db = (Except.ok nar, db')) :
    jGet nar "pivot" = some (Json.str PIVOT_LINE) ∧
    ∃ s, lookupSession db' sid = some s ∧ s.narration_script = some nar := by
  unfold run_narration_script at h
  cases hsd : get_session_with_dish db sid with
  | error e => rw [hsd] at h; simp at h
  | ok sd =>
    rw [hsd] at h
    dsimp only at h
    cases hg : env.gemini with
    | error e => rw [hg] at h; simp at h
    | ok text =>
      rw [hg] at h
      dsimp only at h
      cases hp : _parse_json_response text with
      | error e => rw [hp] at h; simp at h
      | ok parsed =>
        rw [hp] at h
        dsimp only at h
        split at h
        · simp at h
        · rename_i hmiss
          cases hu : update_session_fields db sid (fun s => { s with narration_script := some (parsed.setKey "pivot" (Json.str PIVOT_LINE)) }) with
          | error e => rw [hu] at h; simp at h
          | ok db₁ =>
            rw [hu] at h
            dsimp only at h
            injection h with h₁ h₂
            injection h₁ with h₁
            subst h₁
            subst h₂
            have hpivot : jGet (parsed.setKey "pivot" (Json.str PIVOT_LINE)) "pivot" =
                some (Json.str PIVOT_LINE) := by
              cases parsed with
              | obj kvs => exact jGet_setKey_obj kvs _ _
              | null =>
                exact absurd (by simp [Json.setKey, jKeys, narrationRequiredKeys]) hmiss
              | bool b =>
                exact absurd (by simp [Json.setKey, jKeys, narrationRequiredKeys]) hmiss
              | num q =>
                exact absurd (by simp [Json.setKey, jKeys, narrationRequiredKeys]) hmiss
              | str s =>
                exact absurd (by simp [Json.setKey, jKeys, narrationRequiredKeys]) hmiss
              | arr xs =>
                exact absurd (by simp [Json.setKey, jKeys, narrationRequiredKeys]) hmiss
            refine ⟨hpivot, ?_⟩
            obtain ⟨s, hs, rfl⟩ := update_session_fields_ok_inv _ _ _ _ hu
            refine ⟨_, lookupSession_setSession_same db sid _ s hs, rfl⟩

theorem isSome_of_frame {db db' : DB} {j : Nat}
    (h : (lookupSession db' j).map laterOutputs = (lookupSession db j).map laterOutputs) :
    (lookupSession db' j).isSome = (lookupSession db j).isSome := by
  rw [← Option.isSome_map' (f := laterOutputs), h, Option.isSome_map']

/-- C3: orchestrator success path.  For every run in which the gate passes
and all six stages complete without raising, the run returns successfully via
the `mark-completed` transition, which sets the session status to `completed`
and overwrites `pipeline_error` with the empty string — error text left over
from an earlier failed run is cleared. -/
theorem pipeline_success_path (env : PipelineEnv) (db db₀ db₁ db₂ db₃ db₄ db₅ db₆ : DB)
    (sid uid : Nat) (v0 : VoiceResult) (va : Json) (ctx : RagResult) (ct nar : Json)
    (gp : String)
    (hgate : _check_and_set_processing_sync db sid = (true, db₀))
    (h0 : run_voice_memo env.stage0 sid db₀ = (Except.ok v0, db₁))
    (h1 : run_video_analysis env.stage1 sid db₁ = (Except.ok va, db₂))
    (h2 : run_rag env.stage2 sid db₂ = (Except.ok ctx, db₃))
    (h3 : run_coaching_script env.stage3a sid ctx db₃ = (Except.ok ct, db₄))
    (h4 : run_narration_script env.stage3b sid db₄ = (Except.ok nar, db₅))
    (h5 : run_video_production env.stage4 sid nar db₅ = (Except.ok gp, db₆))
    (hmc : env.markCompletedFail = none) :
    cooking_pipeline env (some sid) (some uid) db =
      (Except.ok (), _set_terminal_status_sync db₆ sid "completed" none) ∧
    ∃ s₆, lookupSession db₆ sid = some s₆ ∧
      lookupSession (cooking_pipeline env (some sid) (some uid) db).2 sid =
        some { s₆ with status := "completed", pipeline_error := "" } := by
  have hrun : cooking_pipeline env (some sid) (some uid) db =
      (Except.ok (), _set_terminal_status_sync db₆ sid "completed" none) := by
    unfold cooking_pipeline
    dsimp only
    rw [hgate]
    dsimp only
    rw [h0]
    dsimp only
    rw [h1]
    dsimp only
    rw [h2]
    dsimp only
    rw [h3]
    dsimp only
    rw [h4]
    dsimp only
    rw [h5]
    dsimp only
    rw [hmc]
    simp
  refine ⟨hrun, ?_⟩
  obtain ⟨s, hls, hst, hdb₀⟩ := gate_true_inv db sid db₀ hgate
  have e₀ : (lookupSession db₀ sid).isSome = true := by
    rw [hdb₀, lookupSession_setSession_same db sid _ s hls]
    rfl
  have e₁ : (lookupSession db₁ sid).isSome = true := by
    have hf := run_voice_memo_frame env.stage0 sid db₀ sid
    rw [h0] at hf
    rw [isSome_of_frame hf]
    exact e₀
  have e₂ : (lookupSession db₂ sid).isSome = true := by
    have hf := run_video_analysis_frame env.stage1 sid db₁ sid
    rw [h1] at hf
    rw [isSome_of_frame hf]
    exact e₁
  have e₃ : (lookupSession db₃ sid).isSome = true := by
    have hf := run_rag_sessions env.stage2 sid db₂ sid
    rw [h2] at hf
    rw [hf]
    exact e₂
  have e₄ : (lookupSession db₄ sid).isSome = true := by
    have hf := run_coaching_script_isSome env.stage3a sid ctx db₃ sid
    rw [h3] at hf
    rw [hf]
    exact e₃
  have e₅ : (lookupSession db₅ sid).isSome = true := by
    have hf := run_narration_script_isSome env.stage3b sid db₄ sid
    rw [h4] at hf
    rw [hf]
    exact e₄
  have e₆ : (lookupSession db₆ sid).isSome = true := by
    have hf := run_video_production_isSome env.stage4 sid nar db₅ sid
    rw [h5] at hf
    rw [hf]
    exact e₅
  obtain ⟨s₆, hs₆⟩ := Option.isSome_iff_exists.mp e₆
  refine ⟨s₆, hs₆, ?_⟩
  rw [hrun]
  exact set_terminal_lookup db₆ sid "completed" none s₆ hs₆

theorem markFailed_ok_inv (env : PipelineEnv) (sid : Nat) (e0 : String) (dbx db' : DB)
    (r : String) (hmf : env.markFailedFail = none)
    (h : runMarkFailed env sid e0 dbx = (Except.error r, db'))
    (p : (lookupSession dbx sid).isSome = true) :
    ∃ s', lookupSession db' sid = some s' ∧ s'.status = "failed" ∧ s'.pipeline_error = r := by
  unfold runMarkFailed at h
  rw [hmf] at h
  injection h with hr hdb
  injection hr with hr
  subst hr
  subst hdb
  obtain ⟨s₃, hs₃⟩ := Option.isSome_iff_exists.mp p
  exact ⟨_, set_terminal_lookup dbx sid "failed" (some e0) s₃ hs₃, rfl, rfl⟩

theorem proj_setSession {α : Type} (proj : CookingSession → α) (db : DB) (k j : Nat)
    (s x : CookingSession) (hs : lookupSession db k = some s) (hx : proj x = proj s) :
    (lookupSession (setSession db k x) j).map proj = (lookupSession db j).map proj := by
  by_cases hjk : j = k
  · subst hjk
    rw [lookupSession_setSession_same db j x s hs, hs]
    simp [hx]
  · rw [lookupSession_setSession_other db k j x hjk]

theorem proj_after_update {α : Type} (proj : CookingSession → α) {db db' : DB} {sid : Nat}
    {f : CookingSession → CookingSession}
    (h : update_session_fields db sid f = Except.ok db')
    (hf : ∀ s, proj (f s) = proj s) (j : Nat) :
    (lookupSession db' j).map proj = (lookupSession db j).map proj := by
  obtain ⟨s, hs, rfl⟩ := update_session_fields_ok_inv _ _ _ _ h
  exact proj_setSession proj db sid j s _ hs (hf s)

theorem run_voice_memo_proj {α : Type} (proj : CookingSession → α)
    (hf : ∀ s a b, proj { s with voice_transcript := a, structured_input := b } = proj s)
    (env : VoiceEnv) (sid : Nat) (db : DB) (j : Nat) :
    (lookupSession (run_voice_memo env sid db).2 j).map proj =
    (lookupSession db j).map proj := by
  unfold run_voice_memo
  dsimp only
  repeat' split
  all_goals dsimp only
  all_goals first
    | rfl
    | exact proj_after_update proj (by assumption) (by intro s; exact hf s _ _) j

theorem run_video_analysis_proj {α : Type} (proj : CookingSession → α)
    (hf : ∀ s a, proj { s with video_analysis := a } = proj s)
    (env : VideoAnalysisEnv) (sid : Nat) (db : DB) (j : Nat) :
    (lookupSession (run_video_analysis env sid db).2 j).map proj =
    (lookupSession db j).map proj := by
  unfold run_video_analysis
  dsimp only
  repeat' split
  all_goals dsimp only
  all_goals first
    | rfl
    | exact proj_after_update proj (by assumption) (by intro s; exact hf s _) j

theorem run_coaching_script_proj {α : Type} (proj : CookingSession → α)
    (hf : ∀ s a st, proj { s with coaching_text := a, status := st } = proj s)
    (env : CoachEnv) (sid : Nat) (ctx : RagResult) (db : DB) (j : Nat) :
    (lookupSession (run_coaching_script env sid ctx db).2 j).map proj =
    (lookupSession db j).map proj := by
  unfold run_coaching_script
  dsimp only
  repeat' split
  all_goals dsimp only
  all_goals first
    | rfl
    | simp only [lookupSession_saveLearnerState]
    | (rw [lookupSession_post_message, lookupSession_post_message,
        proj_after_update proj (by assumption) (by intro s; exact hf s _ _) j]
       simp only [lookupSession_saveLearnerState])
    | (rw [lookupSession_post_message,
        proj_after_update proj (by assumption) (by intro s; exact hf s _ _) j]
       simp only [lookupSession_saveLearnerState])
    | (rw [proj_after_update proj (by assumption) (by intro s; exact hf s _ _) j]
       simp only [lookupSession_saveLearnerState])

theorem run_narration_script_proj {α : Type} (proj : CookingSession → α)
    (hf : ∀ s a, proj { s with narration_script := a } = proj s)
    (env : NarrationEnv) (sid : Nat) (db : DB) (j : Nat) :
    (lookupSession (run_narration_script env sid db).2 j).map proj =
    (lookupSession db j).map proj := by
  unfold run_narration_script
  dsimp only
  repeat' split
  all_goals dsimp only
  all_goals first
    | rfl
    | exact proj_after_update proj (by assumption) (by intro s; exact hf s _) j

theorem failure_tail {α : Type} (proj : CookingSession → α) (env : PipelineEnv)
    (sid uid : Nat) (db dbf : DB) (e : String) (x : α)
    (hrun : cooking_pipeline env (some sid) (some uid) db = runMarkFailed env sid e dbf)
    (hproj : (lookupSession dbf sid).map proj = some x)
    (hterm : ∀ s₁ st er,
      proj ({ s₁ with status := st, pipeline_error := er } : CookingSession) = proj s₁) :
    (cooking_pipeline env (some sid) (some uid) db).1 = Except.error e ∧
    (env.markFailedFail = none →
      ∃ s₁, lookupSession (cooking_pipeline env (some sid) (some uid) db).2 sid = some s₁ ∧
        s₁.status = "failed" ∧ s₁.pipeline_error = e ∧ proj s₁ = x) ∧
    (∀ m, env.markFailedFail = some m →
      cooking_pipeline env (some sid) (some uid) db = (Except.error e, dbf)) := by
  refine ⟨?_, ?_, ?_⟩
  · rw [hrun]
    unfold runMarkFailed
    cases hmf : env.markFailedFail <;> rfl
  · intro hmf
    rw [hrun]
    unfold runMarkFailed
    rw [hmf]
    dsimp only
    obtain ⟨sf, hsf, hpx⟩ := Option.map_eq_some'.mp hproj
    exact ⟨_, set_terminal_lookup dbf sid "failed" (some e) sf hsf, rfl, rfl,
      (hterm sf "failed" ((some e).getD "")).trans hpx⟩
  · intro m hmf
    rw [hrun]
    unfold runMarkFailed
    rw [hmf]

/-- C2: orchestrator failure path.  For every run that passed the idempotency
gate, whichever of the six stages raises first: the run's outcome is that
stage's original exception regardless of whether the mark-failed write itself
raises; when the mark-failed write succeeds the session row ends with status
`failed` and `pipeline_error` equal to the exception text, and the output
fields owned by the not-yet-run stages keep their initial values
(`video_analysis`, `coaching_text`, `narration_script` and
`coaching_video_gcs_path` for a stage-0 failure, shrinking to nothing for a
stage-4 failure); when the mark-failed write raises, that secondary failure
is only logged — the run still re-raises the original exception and the
store is left exactly as the failing stage left it.  Finally, for every
environment whatsoever, any erroring run with a succeeding mark-failed write
leaves the session `failed` with `pipeline_error` equal to the propagated
exception's text. -/
theorem pipeline_failure_path (env : PipelineEnv) (sid uid : Nat) (db db₀ : DB)
    (s : CookingSession)
    (hs : lookupSession db sid = some s)
    (hgate : _check_and_set_processing_sync db sid = (true, db₀)) :
    (∀ (e : String) (db₁ : DB),
      run_voice_memo env.stage0 sid db₀ = (Except.error e, db₁) →
      (cooking_pipeline env (some sid) (some uid) db).1 = Except.error e ∧
      (env.markFailedFail = none →
        ∃ s₁, lookupSession (cooking_pipeline env (some sid) (some uid) db).2 sid = some s₁ ∧
          s₁.status = "failed" ∧ s₁.pipeline_error = e ∧
          s₁.video_analysis = s.video_analysis ∧ s₁.coaching_text = s.coaching_text ∧
          s₁.narration_script = s.narration_script ∧
          s₁.coaching_video_gcs_path = s.coaching_video_gcs_path) ∧
      (∀ m, env.markFailedFail = some m →
        cooking_pipeline env (some sid) (some uid) db = (Except.error e, db₁))) ∧
    (∀ (v0 : VoiceResult) (db₁ : DB) (e : String) (db₂ : DB),
      run_voice_memo env.stage0 sid db₀ = (Except.ok v0, db₁) →
      run_video_analysis env.stage1 sid db₁ = (Except.error e, db₂) →
      (cooking_pipeline env (some sid) (some uid) db).1 = Except.error e ∧
      (env.markFailedFail = none →
        ∃ s₁, lookupSession (cooking_pipeline env (some sid) (some uid) db).2 sid = some s₁ ∧
          s₁.status = "failed" ∧ s₁.pipeline_error = e ∧
          s₁.coaching_text = s.coaching_text ∧ s₁.narration_script = s.narration_script ∧
          s₁.coaching_video_gcs_path = s.coaching_video_gcs_path) ∧
      (∀ m, env.markFailedFail = some m →
        cooking_pipeline env (some sid) (some uid) db = (Except.error e, db₂))) ∧
    (∀ (v0 : VoiceResult) (db₁ : DB) (va : Json) (db₂ : DB) (e : String) (db₃ : DB),
      run_voice_memo env.stage0 sid db₀ = (Except.ok v0, db₁) →
      run_video_analysis env.stage1 sid db₁ = (Except.ok va, db₂) →
      run_rag env.stage2 sid db₂ = (Except.error e, db₃) →
      (cooking_pipeline env (some sid) (some uid) db).1 = Except.error e ∧
      (env.markFailedFail = none →
        ∃ s₁, lookupSession (cooking_pipeline env (some sid) (some uid) db).2 sid = some s₁ ∧
          s₁.status = "failed" ∧ s₁.pipeline_error = e ∧
          s₁.coaching_text = s.coaching_text ∧ s₁.narration_script = s.narration_script ∧
          s₁.coaching_video_gcs_path = s.coaching_video_gcs_path) ∧
      (∀ m, env.markFailedFail = some m →
        cooking_pipeline env (some sid) (some uid) db = (Except.error e, db₃))) ∧
    (∀ (v0 : VoiceResult) (db₁ : DB) (va : Json) (db₂ : DB) (ctx : RagResult) (db₃ : DB)
      (e : String) (db₄ : DB),
      run_voice_memo env.stage0 sid db₀ = (Except.ok v0, db₁) →
      run_video_analysis env.stage1 sid db₁ = (Except.ok va, db₂) →
      run_rag env.stage2 sid db₂ = (Except.ok ctx, db₃) →
      run_coaching_script env.stage3a sid ctx db₃ = (Except.error e, db₄) →
      (cooking_pipeline env (some sid) (some uid) db).1 = Except.error e ∧
      (env.markFailedFail = none →
        ∃ s₁, lookupSession (cooking_pipeline env (some sid) (some uid) db).2 sid = some s₁ ∧
          s₁.status = "failed" ∧ s₁.pipeline_error = e ∧
          s₁.narration_script = s.narration_script ∧
          s₁.coaching_video_gcs_path = s.coaching_video_gcs_path) ∧
      (∀ m, env.markFailedFail = some m →
        cooking_pipeline env (some sid) (some uid) db = (Except.error e, db₄))) ∧
    (∀ (v0 : VoiceResult) (db₁ : DB) (va : Json) (db₂ : DB) (ctx : RagResult) (db₃ : DB)
      (ct : Json) (db₄ : DB) (e : String) (db₅ : DB),
      run_voice_memo env.stage0 sid db₀ = (Except.ok v0, db₁) →
      run_video_analysis env.stage1 sid db₁ = (Except.ok va, db₂) →
      run_rag env.stage2 sid db₂ = (Except.ok ctx, db₃) →
      run_coaching_script env.stage3a sid ctx db₃ = (Except.ok ct, db₄) →
      run_narration_script env.stage3b sid db₄ = (Except.error e, db₅) →
      (cooking_pipeline env (some sid) (some uid) db).1 = Except.error e ∧
      (env.markFailedFail = none →
        ∃ s₁, lookupSession (cooking_pipeline env (some sid) (some uid) db).2 sid = some s₁ ∧
          s₁.status = "failed" ∧ s₁.pipeline_error = e ∧
          s₁.coaching_video_gcs_path = s.coaching_video_gcs_path) ∧
      (∀ m, env.markFailedFail = some m →
        cooking_pipeline env (some sid) (some uid) db = (Except.error e, db₅))) ∧
    (∀ (v0 : VoiceResult) (db₁ : DB) (va : Json) (db₂ : DB) (ctx : RagResult) (db₃ : DB)
      (ct : Json) (db₄ : DB) (nar : Json) (db₅ : DB) (e : String) (db₆ : DB),
      run_voice_memo env.stage0 sid db₀ = (Except.ok v0, db₁) →
      run_video_analysis env.stage1 sid db₁ = (Except.ok va, db₂) →
      run_rag env.stage2 sid db₂ = (Except.ok ctx, db₃) →
      run_coaching_script env.stage3a sid ctx db₃ = (Except.ok ct, db₄) →
      run_narration_script env.stage3b sid db₄ = (Except.ok nar, db₅) →
      run_video_production env.stage4 sid nar db₅ = (Except.error e, db₆) →
      (cooking_pipeline env (some sid) (some uid) db).1 = Except.error e ∧
      (env.markFailedFail = none →
        ∃ s₁, lookupSession (cooking_pipeline env (some sid) (some uid) db).2 sid = some s₁ ∧
          s₁.status = "failed" ∧ s₁.pipeline_error = e) ∧
      (∀ m, env.markFailedFail = some m →
        cooking_pipeline env (some sid) (some uid) db = (Except.error e, db₆))) ∧
    (∀ env₂ r db', cooking_pipeline env₂ (some sid) (some uid) db = (Except.error r, db') →
      env₂.markFailedFail = none →
      ∃ s', lookupSession db' sid = some s' ∧ s'.status = "failed" ∧
        s'.pipeline_error = r) := by
  obtain ⟨sg, hsg, hstg, hdb₀⟩ := gate_true_inv db sid db₀ hgate
  rw [hs] at hsg
  injection hsg with hsg
  subst hsg
  have p₀ : (lookupSession db₀ sid).isSome = true := by
    rw [hdb₀, lookupSession_setSession_same db sid _ s hs]
    rfl
  refine ⟨?_, ?_, ?_, ?_, ?_, ?_, ?_⟩
  · intro e db₁ h0
    have hrun : cooking_pipeline env (some sid) (some uid) db =
        runMarkFailed env sid e db₁ := by
      unfold cooking_pipeline
      dsimp only
      rw [hgate]
      dsimp only
      rw [h0]
      simp
    have f0 := run_voice_memo_proj outputsFromStage1 (fun s₂ a b => rfl)
      env.stage0 sid db₀ sid
    rw [h0] at f0
    have hframe : (lookupSession db₁ sid).map outputsFromStage1 =
        some (outputsFromStage1 s) := by
      rw [f0, hdb₀,
        proj_setSession outputsFromStage1 db sid sid s
          { s with status := "processing" } hs rfl, hs]
      rfl
    obtain ⟨t1, t2, t3⟩ := failure_tail outputsFromStage1 env sid uid db db₁ e
      (outputsFromStage1 s) hrun hframe (fun s₁ st er => rfl)
    refine ⟨t1, ?_, t3⟩
    intro hmf
    obtain ⟨s₁, hls, hst, hpe, hpp⟩ := t2 hmf
    exact ⟨s₁, hls, hst, hpe, congrArg (fun p => p.1) hpp, congrArg (fun p => p.2.1) hpp,
      congrArg (fun p => p.2.2.1) hpp, congrArg (fun p => p.2.2.2) hpp⟩
  · intro v0 db₁ e db₂ h0 h1
    have hrun : cooking_pipeline env (some sid) (some uid) db =
        runMarkFailed env sid e db₂ := by
      unfold cooking_pipeline
      dsimp only
      rw [hgate]
      dsimp only
      rw [h0]
      dsimp only
      rw [h1]
      simp
    have f1 := run_video_analysis_proj laterOutputs (fun s₂ a => rfl)
      env.stage1 sid db₁ sid
    rw [h1] at f1
    have f0 := run_voice_memo_proj laterOutputs (fun s₂ a b => rfl)
      env.stage0 sid db₀ sid
    rw [h0] at f0
    have hframe : (lookupSession db₂ sid).map laterOutputs = some (laterOutputs s) := by
      rw [f1, f0, hdb₀,
        proj_setSession laterOutputs db sid sid s
          { s with status := "processing" } hs rfl, hs]
      rfl
    obtain ⟨t1, t2, t3⟩ := failure_tail laterOutputs env sid uid db db₂ e
      (laterOutputs s) hrun hframe (fun s₁ st er => rfl)
    refine ⟨t1, ?_, t3⟩
    intro hmf
    obtain ⟨s₁, hls, hst, hpe, hpp⟩ := t2 hmf
    exact ⟨s₁, hls, hst, hpe, congrArg (fun p => p.1) hpp, congrArg (fun p => p.2.1) hpp,
      congrArg (fun p => p.2.2) hpp⟩
  · intro v0 db₁ va db₂ e db₃ h0 h1 h2
    have hrun : cooking_pipeline env (some sid) (some uid) db =
        runMarkFailed env sid e db₃ := by
      unfold cooking_pipeline
      dsimp only
      rw [hgate]
      dsimp only
      rw [h0]
      dsimp only
      rw [h1]
      dsimp only
      rw [h2]
      simp
    have f2 := run_rag_sessions env.stage2 sid db₂ sid
    rw [h2] at f2
    have f1 := run_video_analysis_proj laterOutputs (fun s₂ a => rfl)
      env.stage1 sid db₁ sid
    rw [h1] at f1
    have f0 := run_voice_memo_proj laterOutputs (fun s₂ a b => rfl)
      env.stage0 sid db₀ sid
    rw [h0] at f0
    have hframe : (lookupSession db₃ sid).map laterOutputs = some (laterOutputs s) := by
      rw [f2, f1, f0, hdb₀,
        proj_setSession laterOutputs db sid sid s
          { s with status := "processing" } hs rfl, hs]
      rfl
    obtain ⟨t1, t2, t3⟩ := failure_tail laterOutputs env sid uid db db₃ e
      (laterOutputs s) hrun hframe (fun s₁ st er => rfl)
    refine ⟨t1, ?_, t3⟩
    intro hmf
    obtain ⟨s₁, hls, hst, hpe, hpp⟩ := t2 hmf
    exact ⟨s₁, hls, hst, hpe, congrArg (fun p => p.1) hpp, congrArg (fun p => p.2.1) hpp,
      congrArg (fun p => p.2.2) hpp⟩
  · intro v0 db₁ va db₂ ctx db₃ e db₄ h0 h1 h2 h3
    have hrun : cooking_pipeline env (some sid) (some uid) db =
        runMarkFailed env sid e db₄ := by
      unfold cooking_pipeline
      dsimp only
      rw [hgate]
      dsimp only
      rw [h0]
      dsimp only
      rw [h1]
      dsimp only
      rw [h2]
      dsimp only
      rw [h3]
      simp
    have f3 := run_coaching_script_proj outputsFromStage3b (fun s₂ a st => rfl)
      env.stage3a sid ctx db₃ sid
    rw [h3] at f3
    have f2 := run_rag_sessions env.stage2 sid db₂ sid
    rw [h2] at f2
    have f1 := run_video_analysis_proj outputsFromStage3b (fun s₂ a => rfl)
      env.stage1 sid db₁ sid
    rw [h1] at f1
    have f0 := run_voice_memo_proj outputsFromStage3b (fun s₂ a b => rfl)
      env.stage0 sid db₀ sid
    rw [h0] at f0
    have hframe : (lookupSession db₄ sid).map outputsFromStage3b =
        some (outputsFromStage3b s) := by
      rw [f3, f2, f1, f0, hdb₀,
        proj_setSession outputsFromStage3b db sid sid s
          { s with status := "processing" } hs rfl, hs]
      rfl
    obtain ⟨t1, t2, t3⟩ := failure_tail outputsFromStage3b env sid uid db db₄ e
      (outputsFromStage3b s) hrun hframe (fun s₁ st er => rfl)
    refine ⟨t1, ?_, t3⟩
    intro hmf
    obtain ⟨s₁, hls, hst, hpe, hpp⟩ := t2 hmf
    exact ⟨s₁, hls, hst, hpe, congrArg (fun p => p.1) hpp, congrArg (fun p => p.2) hpp⟩
  · intro v0 db₁ va db₂ ctx db₃ ct db₄ e db₅ h0 h1 h2 h3 h4
    have hrun : cooking_pipeline env (some sid) (some uid) db =
        runMarkFailed env sid e db₅ := by
      unfold cooking_pipeline
      dsimp only
      rw [hgate]
      dsimp only
      rw [h0]
      dsimp only
      rw [h1]
      dsimp only
      rw [h2]
      dsimp only
      rw [h3]
      dsimp only
      rw [h4]
      simp
    have f4 := run_narration_script_proj outputsFromStage4 (fun s₂ a => rfl)
      env.stage3b sid db₄ sid
    rw [h4] at f4
    have f3 := run_coaching_script_proj outputsFromStage4 (fun s₂ a st => rfl)
      env.stage3a sid ctx db₃ sid
    rw [h3] at f3
    have f2 := run_rag_sessions env.stage2 sid db₂ sid
    rw [h2] at f2
    have f1 := run_video_analysis_proj outputsFromStage4 (fun s₂ a => rfl)
      env.stage1 sid db₁ sid
    rw [h1] at f1
    have f0 := run_voice_memo_proj outputsFromStage4 (fun s₂ a b => rfl)
      env.stage0 sid db₀ sid
    rw [h0] at f0
    have hframe : (lookupSession db₅ sid).map outputsFromStage4 =
        some (outputsFromStage4 s) := by
      rw [f4, f3, f2, f1, f0, hdb₀,
        proj_setSession outputsFromStage4 db sid sid s
          { s with status := "processing" } hs rfl, hs]
      rfl
    obtain ⟨t1, t2, t3⟩ := failure_tail outputsFromStage4 env sid uid db db₅ e
      (outputsFromStage4 s) hrun hframe (fun s₁ st er => rfl)
    refine ⟨t1, ?_, t3⟩
    intro hmf
    obtain ⟨s₁, hls, hst, hpe, hpp⟩ := t2 hmf
    exact ⟨s₁, hls, hst, hpe, hpp⟩
  · intro v0 db₁ va db₂ ctx db₃ ct db₄ nar db₅ e db₆ h0 h1 h2 h3 h4 h5
    have hrun : cooking_pipeline env (some sid) (some uid) db =
        runMarkFailed env sid e db₆ := by
      unfold cooking_pipeline
      dsimp only
      rw [hgate]
      dsimp only
      rw [h0]
      dsimp only
      rw [h1]
      dsimp only
      rw [h2]
      dsimp only
      rw [h3]
      dsimp only
      rw [h4]
      dsimp only
      rw [h5]
      simp
    have p1 : (lookupSession db₁ sid).isSome = true := by
      have hf := run_voice_memo_frame env.stage0 sid db₀ sid
      rw [h0] at hf
      rw [isSome_of_frame hf]
      exact p₀
    have p2 : (lookupSession db₂ sid).isSome = true := by
      have hf := run_video_analysis_frame env.stage1 sid db₁ sid
      rw [h1] at hf
      rw [isSome_of_frame hf]
      exact p1
    have p3 : (lookupSession db₃ sid).isSome = true := by
      have hf := run_rag_sessions env.stage2 sid db₂ sid
      rw [h2] at hf
      rw [hf]
      exact p2
    have p4 : (lookupSession db₄ sid).isSome = true := by
      have hf := run_coaching_script_isSome env.stage3a sid ctx db₃ sid
      rw [h3] at hf
      rw [hf]
      exact p3
    have p5 : (lookupSession db₅ sid).isSome = true := by
      have hf := run_narration_script_isSome env.stage3b sid db₄ sid
      rw [h4] at hf
      rw [hf]
      exact p4
    have p6 : (lookupSession db₆ sid).isSome = true := by
      have hf := run_video_production_isSome env.stage4 sid nar db₅ sid
      rw [h5] at hf
      rw [hf]
      exact p5
    obtain ⟨x6, hx6⟩ := Option.isSome_iff_exists.mp p6
    have hproj : (lookupSession db₆ sid).map (fun _ => ()) = some () := by
      simp [hx6]
    obtain ⟨t1, t2, t3⟩ := failure_tail (fun _ => ()) env sid uid db db₆ e ()
      hrun hproj (fun s₁ st er => rfl)
    refine ⟨t1, ?_, t3⟩
    intro hmf
    obtain ⟨s₁, hls, hst, hpe, _⟩ := t2 hmf
    exact ⟨s₁, hls, hst, hpe⟩
  · intro env₂ r db' hrun₂ hmf
    unfold cooking_pipeline at hrun₂
    dsimp only at hrun₂
    rw [hgate] at hrun₂
    dsimp only at hrun₂
    cases hv0 : run_voice_memo env₂.stage0 sid db₀ with
    | mk f0 dbx0 =>
    rw [hv0] at hrun₂
    have px0 : (lookupSession dbx0 sid).isSome = true := by
      have hf := run_voice_memo_frame env₂.stage0 sid db₀ sid
      rw [hv0] at hf
      dsimp only at hf
      rw [isSome_of_frame hf]
      exact p₀
    cases f0 with
    | error e0 =>
      dsimp only at hrun₂
      exact markFailed_ok_inv env₂ sid e0 dbx0 db' r hmf hrun₂ px0
    | ok w0 =>
    dsimp only at hrun₂
    cases hv1 : run_video_analysis env₂.stage1 sid dbx0 with
    | mk f1 dbx1 =>
    rw [hv1] at hrun₂
    have px1 : (lookupSession dbx1 sid).isSome = true := by
      have hf := run_video_analysis_frame env₂.stage1 sid dbx0 sid
      rw [hv1] at hf
      dsimp only at hf
      rw [isSome_of_frame hf]
      exact px0
    cases f1 with
    | error e1 =>
      dsimp only at hrun₂
      exact markFailed_ok_inv env₂ sid e1 dbx1 db' r hmf hrun₂ px1
    | ok w1 =>
    dsimp only at hrun₂
    cases hv2 : run_rag env₂.stage2 sid dbx1 with
    | mk f2 dbx2 =>
    rw [hv2] at hrun₂
    have px2 : (lookupSession dbx2 sid).isSome = true := by
      have hf := run_rag_sessions env₂.stage2 sid dbx1 sid
      rw [hv2] at hf
      dsimp only at hf
      rw [hf]
      exact px1
    cases f2 with
    | error e2 =>
      dsimp only at hrun₂
      exact markFailed_ok_inv env₂ sid e2 dbx2 db' r hmf hrun₂ px2
    | ok w2 =>
    dsimp only at hrun₂
    cases hv3 : run_coaching_script env₂.stage3a sid w2 dbx2 with
    | mk f3 dbx3 =>
    rw [hv3] at hrun₂
    have px3 : (lookupSession dbx3 sid).isSome = true := by
      have hf := run_coaching_script_isSome env₂.stage3a sid w2 dbx2 sid
      rw [hv3] at hf
      dsimp only at hf
      rw [hf]
      exact px2
    cases f3 with
    | error e3 =>
      dsimp only at hrun₂
      exact markFailed_ok_inv env₂ sid e3 dbx3 db' r hmf hrun₂ px3
    | ok w3 =>
    dsimp only at hrun₂
    cases hv4 : run_narration_script env₂.stage3b sid dbx3 with
    | mk f4 dbx4 =>
    rw [hv4] at hrun₂
    have px4 : (lookupSession dbx4 sid).isSome = true := by
      have hf := run_narration_script_isSome env₂.stage3b sid dbx3 sid
      rw [hv4] at hf
      dsimp only at hf
      rw [hf]
      exact px3
    cases f4 with
    | error e4 =>
      dsimp only at hrun₂
      exact markFailed_ok_inv env₂ sid e4 dbx4 db' r hmf hrun₂ px4
    | ok w4 =>
    dsimp only at hrun₂
    cases hv5 : run_video_production env₂.stage4 sid w4 dbx4 with
    | mk f5 dbx5 =>
    rw [hv5] at hrun₂
    have px5 : (lookupSession dbx5 sid).isSome = true := by
      have hf := run_video_production_isSome env₂.stage4 sid w4 dbx4 sid
      rw [hv5] at hf
      dsimp only at hf
      rw [hf]
      exact px4
    cases f5 with
    | error e5 =>
      dsimp only at hrun₂
      exact markFailed_ok_inv env₂ sid e5 dbx5 db' r hmf hrun₂ px5
    | ok w5 =>
    dsimp only at hrun₂
    cases hmc₂ : env₂.markCompletedFail with
    | some m =>
      rw [hmc₂] at hrun₂
      dsimp only at hrun₂
      exact markFailed_ok_inv env₂ sid m dbx5 db' r hmf hrun₂ px5
    | none =>
      rw [hmc₂] at hrun₂
      dsimp only at hrun₂
      exact absurd (congrArg Prod.fst hrun₂) (by simp)

theorem promoteSkillsPart_summaries (ls : LearnerState) (n : Nat) (ct : Json) :
    (promoteSkillsPart ls n ct).session_summaries = ls.session_summaries := by
  unfold promoteSkillsPart
  dsimp only
  repeat' split
  all_goals rfl

theorem appendSummaryPart_count {ls : LearnerState} {sid : Nat} {ct d : Json}
    {ls₁ : LearnerState} (h : appendSummaryPart ls sid ct d = Except.ok ls₁)
    (hc : ls.session_summaries.countP (summaryMatches sid) ≤ 1) :
    ls₁.session_summaries.countP (summaryMatches sid) ≤ 1 := by
  unfold appendSummaryPart at h
  dsimp only at h
  by_cases hal : (ls.session_summaries.any (summaryMatches sid)) = true
  · rw [hal] at h
    simp only [Bool.not_true, Bool.false_eq_true, if_false] at h
    injection h with h₁
    subst h₁
    exact hc
  · rw [Bool.not_eq_true] at hal
    rw [hal] at h
    simp only [Bool.not_false, if_true] at h
    have hzero : ls.session_summaries.countP (summaryMatches sid) = 0 := by
      rw [List.countP_eq_zero]
      intro a ha
      have := List.any_eq_false.mp hal a ha
      simp [this]
    have hone : ∀ entry : Json,
        (ls.session_summaries ++ [entry]).countP (summaryMatches sid) ≤ 1 := by
      intro entry
      rw [List.countP_append, hzero]
      simp [List.countP_cons]
      split <;> simp
    repeat' split at h
    all_goals first
      | (injection h with h₁; subst h₁; exact hone _)
      | exact absurd h (by simp)

theorem run_ls_update_count {ls : LearnerState} {sid n : Nat} {ct d : Json}
    {ls₁ : LearnerState} (h : run_ls_update ls sid n ct d = Except.ok ls₁)
    (hc : ls.session_summaries.countP (summaryMatches sid) ≤ 1) :
    ls₁.session_summaries.countP (summaryMatches sid) ≤ 1 := by
  unfold run_ls_update at h
  cases ha : appendSummaryPart ls sid ct d with
  | error e => rw [ha] at h; simp at h
  | ok ls₀ =>
    rw [ha] at h
    dsimp only at h
    injection h with h₁
    subst h₁
    rw [promoteSkillsPart_summaries]
    exact appendSummaryPart_count ha hc

theorem summaryCount_post_message (db : DB) (rid : Nat) (snd : String) (sid₀ : Option Nat)
    (t g : String) (uid sid : Nat) :
    summaryCount (post_message db rid snd sid₀ t g) uid sid = summaryCount db uid sid := by
  unfold summaryCount
  rw [lookupLearnerState_post_message]

theorem summaryCount_setSession (db : DB) (k : Nat) (x : CookingSession) (uid sid : Nat) :
    summaryCount (setSession db k x) uid sid = summaryCount db uid sid := by
  unfold summaryCount
  rw [lookupLearnerState_setSession]

theorem summaryCount_after_save {u : Nat} {ls₁ : LearnerState} {sid n : Nat} {ct d : Json}
    (db : DB) (hupd : run_ls_update ((lookupLearnerState db u).getD {}) sid n ct d =
      Except.ok ls₁) (uid : Nat) (h : summaryCount db uid sid ≤ 1) :
    summaryCount (saveLearnerState db u ls₁) uid sid ≤ 1 := by
  by_cases huu : uid = u
  · subst huu
    unfold summaryCount
    rw [lookupLearnerState_save_same]
    refine run_ls_update_count hupd ?_
    unfold summaryCount at h
    cases hls : lookupLearnerState db uid with
    | none => simp [hls, LearnerState.session_summaries]
    | some ls₀ =>
      rw [hls] at h
      simpa [hls] using h
  · unfold summaryCount at h ⊢
    rw [lookupLearnerState_save_other _ _ _ _ huu]
    exact h

theorem summaryCount_after_update {db db' : DB} {sid : Nat}
    {f : CookingSession → CookingSession}
    (h : update_session_fields db sid f = Except.ok db') (uid sid₀ : Nat) :
    summaryCount db' uid sid₀ = summaryCount db uid sid₀ := by
  obtain ⟨s, hs, rfl⟩ := update_session_fields_ok_inv _ _ _ _ h
  exact summaryCount_setSession db sid (f s) uid sid₀

theorem run_coaching_preserves_dedup (env : CoachEnv) (sid : Nat) (ctx : RagResult) (db : DB)
    (uid : Nat) (h : summaryCount db uid sid ≤ 1) :
    summaryCount (run_coaching_script env sid ctx db).2 uid sid ≤ 1 := by
  unfold run_coaching_script
  dsimp only
  repeat' split
  all_goals dsimp only
  all_goals first
    | exact h
    | (rw [summaryCount_post_message, summaryCount_post_message]
       rw [summaryCount_after_update (by assumption) uid sid]
       exact summaryCount_after_save db (by assumption) uid h)
    | (rw [summaryCount_post_message]
       rw [summaryCount_after_update (by assumption) uid sid]
       exact summaryCount_after_save db (by assumption) uid h)
    | (rw [summaryCount_after_update (by assumption) uid sid]
       exact summaryCount_after_save db (by assumption) uid h)
    | exact summaryCount_after_save db (by assumption) uid h

/-- C4: LearnerState summary dedup.  For every session id and every store
whose LearnerState satisfies the data-model invariant (at most one
`session_summaries` entry for that session id — in particular any state the
pipeline itself can produce), running stage 3a twice for the same session id
leaves at most one entry whose `session_id` field equals that id: the re-run
detects the existing entry and does not append a duplicate, whatever the
outcome of each run. -/
theorem summary_dedup_two_runs (env₁ env₂ : CoachEnv) (ctx₁ ctx₂ : RagResult) (sid uid : Nat)
    (db : DB) (h : summaryCount db uid sid ≤ 1) :
    summaryCount
      (run_coaching_script env₂ sid ctx₂ (run_coaching_script env₁ sid ctx₁ db).2).2
      uid sid ≤ 1 :=
  run_coaching_preserves_dedup env₂ sid ctx₂ _ uid
    (run_coaching_preserves_dedup env₁ sid ctx₁ db uid h)

theorem missing_nonempty {keys : List String} {j : Json} {k : String} (hk : k ∈ keys)
    (hc : (jKeys j).contains k = false) :
    (!(keys.filter (fun x => !(jKeys j).contains x)).isEmpty) = true := by
  have hmem : k ∈ keys.filter (fun x => !(jKeys j).contains x) :=
    List.mem_filter.mpr ⟨hk, by simp only [Bool.not_eq_true']; exact hc⟩
  cases hcase : keys.filter (fun x => !(jKeys j).contains x) with
  | nil => rw [hcase] at hmem; simp at hmem
  | cons a l => rfl

theorem contains_keys_insertKV_other (kvs : List (String × Json)) (p k : String) (v : Json)
    (hk : k ≠ p) :
    ((insertKV kvs p v).map (fun q => q.1)).contains k =
      (kvs.map (fun q => q.1)).contains k := by
  induction kvs with
  | nil => simp [insertKV, List.contains_cons, beq_eq_false_iff_ne, hk]
  | cons hd tl ih =>
    obtain ⟨k₁, v₁⟩ := hd
    by_cases h₁ : (k₁ == p) = true
    · simp [insertKV, h₁]
    · have h₁f : (k₁ == p) = false := by rw [Bool.not_eq_true] at h₁; exact h₁
      simp only [insertKV, h₁f, Bool.false_eq_true, if_false, List.map_cons,
        List.contains_cons, ih]

theorem contains_keys_setKey_other (j : Json) (p k : String) (v : Json) (hk : k ≠ p) :
    ((jKeys (j.setKey p v)).contains k) = ((jKeys j).contains k) := by
  cases j with
  | obj kvs =>
    simp only [Json.setKey, jKeys]
    exact contains_keys_insertKV_other kvs p k v hk
  | null => rfl
  | bool b => rfl
  | num q => rfl
  | str s => rfl
  | arr xs => rfl

/-- C5 (amended): required-key validation in the stages that have a fixed
required-key set.  Stages 1 (video analysis), 3a (coaching) and 3b
(narration) each raise on an unparsable AI response and raise on any key of
their required-key set missing from the validated result, in every case
without calling their persistence function (the store is returned
untouched).  For stage 3b the validated result is the pivot-overridden
response, so any required key other than `pivot` missing from the response
raises, while `pivot` itself is always supplied by the override.  The
original claim's "every stage" does not extend to stage 0, which replaces an
unparsable entity-extraction response with the empty dict instead of
failing. -/
theorem required_key_validation (sid : Nat) (db : DB) :
    (∀ (env : VideoAnalysisEnv) (text msg : String), env.gemini = Except.ok text →
      _parse_json_response text = Except.error msg →
      ∃ e, run_video_analysis env sid db = (Except.error e, db)) ∧
    (∀ (env : VideoAnalysisEnv) (text : String) (j : Json) (k : String),
      env.gemini = Except.ok text → _parse_json_response text = Except.ok j →
      k ∈ videoAnalysisRequiredKeys → (jKeys j).contains k = false →
      ∃ e, run_video_analysis env sid db = (Except.error e, db)) ∧
    (∀ (env : CoachEnv) (ctx : RagResult) (text msg : String), env.gemini = Except.ok text →
      _parse_json_response text = Except.error msg →
      ∃ e, run_coaching_script env sid ctx db = (Except.error e, db)) ∧
    (∀ (env : CoachEnv) (ctx : RagResult) (text : String) (j : Json) (k : String),
      env.gemini = Except.ok text → _parse_json_response text = Except.ok j →
      k ∈ coachingRequiredKeys → (jKeys j).contains k = false →
      ∃ e, run_coaching_script env sid ctx db = (Except.error e, db)) ∧
    (∀ (env : NarrationEnv) (text msg : String), env.gemini = Except.ok text →
      _parse_json_response text = Except.error msg →
      ∃ e, run_narration_script env sid db = (Except.error e, db)) ∧
    (∀ (env : NarrationEnv) (text : String) (j : Json) (k : String),
      env.gemini = Except.ok text → _parse_json_response text = Except.ok j →
      k ∈ narrationRequiredKeys →
      (jKeys (j.setKey "pivot" (Json.str PIVOT_LINE))).contains k = false →
      ∃ e, run_narration_script env sid db = (Except.error e, db)) ∧
    (∀ (env : NarrationEnv) (text : String) (j : Json) (k : String),
      env.gemini = Except.ok text → _parse_json_response text = Except.ok j →
      k ∈ narrationRequiredKeys → k ≠ "pivot" → (jKeys j).contains k = false →
      ∃ e, run_narration_script env sid db = (Except.error e, db)) := by
  have narrMissing : ∀ (env : NarrationEnv) (text : String) (j : Json) (k : String),
      env.gemini = Except.ok text → _parse_json_response text = Except.ok j →
      k ∈ narrationRequiredKeys →
      (jKeys (j.setKey "pivot" (Json.str PIVOT_LINE))).contains k = false →
      ∃ e, run_narration_script env sid db = (Except.error e, db) := by
    intro env text j k hg hp hk hc
    cases hsd : get_session_with_dish db sid with
    | error e => exact ⟨e, by unfold run_narration_script; rw [hsd]⟩
    | ok sd =>
      refine ⟨"Narration script response missing required keys: " ++
        toString (narrationRequiredKeys.filter
          (fun x => !(jKeys (j.setKey "pivot" (Json.str PIVOT_LINE))).contains x)), ?_⟩
      unfold run_narration_script
      rw [hsd]
      dsimp only
      rw [hg]
      dsimp only
      rw [hp]
      dsimp only
      rw [if_pos (missing_nonempty hk hc)]
  refine ⟨?_, ?_, ?_, ?_, ?_, narrMissing, ?_⟩
  · intro env text msg hg hp
    cases hsd : get_session_with_dish db sid with
    | error e => exact ⟨e, by unfold run_video_analysis; rw [hsd]⟩
    | ok sd =>
      refine ⟨msg, ?_⟩
      unfold run_video_analysis
      rw [hsd]
      dsimp only
      rw [hg]
      dsimp only
      rw [hp]
  · intro env text j k hg hp hk hc
    cases hsd : get_session_with_dish db sid with
    | error e => exact ⟨e, by unfold run_video_analysis; rw [hsd]⟩
    | ok sd =>
      refine ⟨"Gemini response missing required keys: " ++
        toString (videoAnalysisRequiredKeys.filter (fun x => !(jKeys j).contains x)), ?_⟩
      unfold run_video_analysis
      rw [hsd]
      dsimp only
      rw [hg]
      dsimp only
      rw [hp]
      dsimp only
      rw [if_pos (missing_nonempty hk hc)]
  · intro env ctx text msg hg hp
    cases hsd : get_session_with_dish db sid with
    | error e => exact ⟨e, by unfold run_coaching_script; rw [hsd]⟩
    | ok sd =>
      refine ⟨msg, ?_⟩
      unfold run_coaching_script
      rw [hsd]
      dsimp only
      rw [hg]
      dsimp only
      rw [hp]
  · intro env ctx text j k hg hp hk hc
    cases hsd : get_session_with_dish db sid with
    | error e => exact ⟨e, by unfold run_coaching_script; rw [hsd]⟩
    | ok sd =>
      refine ⟨"Gemini response missing required keys: " ++
        toString (coachingRequiredKeys.filter (fun x => !(jKeys j).contains x)), ?_⟩
      unfold run_coaching_script
      rw [hsd]
      dsimp only
      rw [hg]
      dsimp only
      rw [hp]
      dsimp only
      rw [if_pos (missing_nonempty hk hc)]
  · intro env text msg hg hp
    cases hsd : get_session_with_dish db sid with
    | error e => exact ⟨e, by unfold run_narration_script; rw [hsd]⟩
    | ok sd =>
      refine ⟨msg, ?_⟩
      unfold run_narration_script
      rw [hsd]
      dsimp only
      rw [hg]
      dsimp only
      rw [hp]
  · intro env text j k hg hp hk hkp hc
    refine narrMissing env text j k hg hp hk ?_
    rw [contains_keys_setKey_other j "pivot" k (Json.str PIVOT_LINE) hkp]
    exact hc

/-- C5 counterexample: stage 0 (voice memo), given an unparsable AI response,
succeeds, substitutes the empty dict for `structured_input`, and calls its
persistence function — contradicting the claim for this stage. -/
theorem voice_memo_silent_substitution :
    (∃ msg, _parse_json_response "not json" = Except.error msg) ∧
    (run_voice_memo voiceEnvFix 1 voiceDbFix).1 =
      Except.ok { voice_transcript := "transcript", structured_input := Json.obj [] } ∧
    ∃ s, lookupSession (run_voice_memo voiceEnvFix 1 voiceDbFix).2 1 = some s ∧
      s.structured_input = some (Json.obj []) := by
  exact ⟨⟨_, rfl⟩, rfl, ⟨_, rfl, rfl⟩⟩

theorem parseMembers_obj : ∀ (fuel : Nat) (cs : List Char) (acc : List (String × Json))
    (j : Json) (r : List Char), parseMembers fuel cs acc = some (j, r) →
    ∃ kvs, j = Json.obj kvs := by
  intro fuel
  induction fuel with
  | zero => intro cs acc j r h; simp [parseMembers] at h
  | succ n ih =>
    intro cs acc j r h
    unfold parseMembers at h
    repeat' split at h
    all_goals try dsimp only at h
    all_goals first
      | (injection h with h₁; injection h₁ with hj hr; exact ⟨_, hj.symm⟩)
      | exact ih _ _ _ _ h
      | simp at h

theorem parseElements_arr : ∀ (fuel : Nat) (cs : List Char) (acc : List Json)
    (j : Json) (r : List Char), parseElements fuel cs acc = some (j, r) →
    ∃ xs, j = Json.arr xs := by
  intro fuel
  induction fuel with
  | zero => intro cs acc j r h; simp [parseElements] at h
  | succ n ih =>
    intro cs acc j r h
    unfold parseElements at h
    repeat' split at h
    all_goals first
      | (injection h with h₁; injection h₁ with hj hr; exact ⟨_, hj.symm⟩)
      | exact ih _ _ _ _ h
      | simp at h

theorem parseValue_obj_head (fuel : Nat) (cs : List Char) (j : Json) (r : List Char)
    (h : parseValue fuel cs = some (j, r)) (hobj : j.isObj = true) :
    cs.head? = some '{' := by
  cases fuel with
  | zero => simp [parseValue] at h
  | succ n =>
    unfold parseValue at h
    repeat' split at h
    all_goals first
      | rfl
      | (obtain ⟨a, ha, hfa⟩ := Option.map_eq_some'.mp h
         injection hfa with hj hr
         rw [← hj] at hobj
         simp [Json.isObj] at hobj)
      | (injection h with h₁; injection h₁ with hj hr
         rw [← hj] at hobj
         simp [Json.isObj] at hobj)
      | (obtain ⟨xs, hxs⟩ := parseElements_arr _ _ _ _ _ h
         rw [hxs] at hobj
         simp [Json.isObj] at hobj)
      | simp_all [Json.isObj]

theorem parseValue_at_brace (fuel : Nat) (rest : List Char) (j : Json) (r : List Char)
    (h : parseValue fuel ('{' :: rest) = some (j, r)) : j.isObj = true := by
  cases fuel with
  | zero => simp [parseValue] at h
  | succ n =>
    rw [show parseValue (n + 1) ('{' :: rest) =
        (match skipWS rest with
          | '}' :: r => some (Json.obj [], r)
          | cs₁ => parseMembers n cs₁ []) from rfl] at h
    split at h
    · injection h with h₁
      injection h₁ with hj hr
      rw [← hj]
      rfl
    · obtain ⟨kvs, hkvs⟩ := parseMembers_obj _ _ _ _ _ h
      rw [hkvs]
      rfl

theorem dropWhile_eq_drop (p : Char → Bool) (cs : List Char) :
    ∃ n, cs.dropWhile p = cs.drop n := by
  induction cs with
  | nil => exact ⟨0, rfl⟩
  | cons c cs' ih =>
    by_cases hc : p c = true
    · obtain ⟨n, hn⟩ := ih
      refine ⟨n + 1, ?_⟩
      rw [List.dropWhile_cons, if_pos hc, hn]
      rfl
    · refine ⟨0, ?_⟩
      rw [List.dropWhile_cons, if_neg hc]
      rfl

theorem dropWhile_head_brace (cs : List Char) (c : Char) (rest : List Char)
    (h : cs.dropWhile (fun x => x != '{') = c :: rest) : c = '{' := by
  induction cs with
  | nil => simp [List.dropWhile] at h
  | cons a l ih =>
    rw [List.dropWhile_cons] at h
    by_cases ha : (a != '{') = true
    · rw [if_pos ha] at h
      exact ih h
    · rw [if_neg ha] at h
      injection h with h₁ h₂
      rw [Bool.not_eq_true, bne_eq_false_iff_eq] at ha
      rw [← h₁]
      exact ha

theorem drop_le_dropWhile_of_brace (cs : List Char) (n : Nat)
    (h : (cs.drop n).head? = some '{') :
    (cs.drop n).length ≤ (cs.dropWhile (fun c => c != '{')).length := by
  induction cs generalizing n with
  | nil => rw [List.drop_nil] at h; simp at h
  | cons c cs' ih =>
    cases n with
    | zero =>
      rw [List.drop_zero] at h ⊢
      have hc : c = '{' := by
        rw [List.head?_cons] at h
        injection h
      rw [List.dropWhile_cons, if_neg (by simp [hc])]
    | succ m =>
      have hdrop : (c :: cs').drop (m + 1) = cs'.drop m := rfl
      rw [hdrop] at h ⊢
      by_cases hc : (c != '{') = true
      · rw [List.dropWhile_cons, if_pos hc]
        exact ih m h
      · rw [List.dropWhile_cons, if_neg hc]
        have h₁ : (cs'.drop m).length ≤ cs'.length := by
          rw [List.length_drop]
          omega
        have h₂ : cs'.length ≤ (c :: cs').length := by
          rw [List.length_cons]
          omega
        omega

/-- C8 (amended): `_parse_json_response` decodes at the first opening brace
only.  For every response text: with no `\x7b` it raises ValueError with the
source's message; when a JSON value decodes at the first `\x7b` the function
returns it, that value is an object, and it is the first well-formed JSON
object in the text (any position where an object decodes lies at or after the
first `\x7b`); when decoding at the first `\x7b` fails it raises ValueError
even if a well-formed JSON object occurs later (the counterexample); and
consequently for every text containing no decodable JSON object at any
position it raises ValueError. -/
theorem parse_json_first_brace (text : String) :
    (text.toList.dropWhile (fun c => c != '{') = [] →
      _parse_json_response text =
        Except.error ("No JSON object found in response: " ++
          String.mk (text.toList.take 200))) ∧
    (∀ v r, rawDecode (text.toList.dropWhile (fun c => c != '{')) = some (v, r) →
      _parse_json_response text = Except.ok v ∧ v.isObj = true ∧
      ∀ n w r₂, rawDecode (text.toList.drop n) = some (w, r₂) → w.isObj = true →
        (text.toList.drop n).length ≤
          (text.toList.dropWhile (fun c => c != '{')).length) ∧
    (text.toList.dropWhile (fun c => c != '{') ≠ [] →
      rawDecode (text.toList.dropWhile (fun c => c != '{')) = none →
      _parse_json_response text =
        Except.error ("Failed to parse JSON from response: " ++
          String.mk (text.toList.take 200))) ∧
    ((∀ n w r₂, rawDecode (text.toList.drop n) = some (w, r₂) → w.isObj = false) →
      ∃ msg, _parse_json_response text = Except.error msg) := by
  refine ⟨?_, ?_, ?_, ?_⟩
  · intro h
    unfold _parse_json_response
    dsimp only
    rw [h]
  · intro v r hdec
    cases hsfx : text.toList.dropWhile (fun c => c != '{') with
    | nil =>
      rw [hsfx] at hdec
      simp [rawDecode, parseValue] at hdec
    | cons c rest =>
      have hc : c = '{' := dropWhile_head_brace _ _ _ hsfx
      subst hc
      rw [hsfx] at hdec
      refine ⟨?_, ?_, ?_⟩
      · unfold _parse_json_response
        dsimp only
        rw [hsfx, hdec]
      · unfold rawDecode at hdec
        exact parseValue_at_brace _ _ _ _ hdec
      · intro n w r₂ hw hwobj
        unfold rawDecode at hw
        rw [← hsfx]
        exact drop_le_dropWhile_of_brace _ n (parseValue_obj_head _ _ _ _ hw hwobj)
  · intro hne hdecn
    cases hsfx : text.toList.dropWhile (fun c => c != '{') with
    | nil => exact absurd hsfx hne
    | cons c rest =>
      rw [hsfx] at hdecn
      unfold _parse_json_response
      dsimp only
      rw [hsfx, hdecn]
  · intro hnoobj
    cases hsfx : text.toList.dropWhile (fun c => c != '{') with
    | nil =>
      refine ⟨"No JSON object found in response: " ++ String.mk (text.toList.take 200), ?_⟩
      unfold _parse_json_response
      dsimp only
      rw [hsfx]
    | cons c rest =>
      have hc : c = '{' := dropWhile_head_brace _ _ _ hsfx
      subst hc
      cases hdec : rawDecode ('{' :: rest) with
      | none =>
        refine ⟨"Failed to parse JSON from response: " ++ String.mk (text.toList.take 200), ?_⟩
        unfold _parse_json_response
        dsimp only
        rw [hsfx, hdec]
      | some pr =>
        obtain ⟨w, r₂⟩ := pr
        obtain ⟨n₀, hn₀⟩ := dropWhile_eq_drop (fun c => c != '{') text.toList
        rw [hsfx] at hn₀
        have hobj : w.isObj = true := by
          unfold rawDecode at hdec
          exact parseValue_at_brace _ _ _ _ hdec
        have hfalse : w.isObj = false := by
          refine hnoobj n₀ w r₂ ?_
          rw [← hn₀]
          exact hdec
        rw [hfalse] at hobj
        exact absurd hobj (by simp)

/-- C8 counterexample: `braceTextFix` contains the well-formed JSON object
decoded at position 5, surrounded by arbitrary text, yet the function raises
because the decode at the first brace (position 1) fails. -/
theorem parse_first_object_counterexample :
    rawDecode (braceTextFix.toList.drop 5) =
      some (Json.obj [("k", Json.bool true)], []) ∧
    _parse_json_response braceTextFix =
      Except.error ("Failed to parse JSON from response: " ++ braceTextFix) := by
  constructor
  · rfl
  · rfl

/-- C1 witness. -/
theorem gate_contract_witness :
    _check_and_set_processing_sync emptyDbFix 9 = (false, emptyDbFix) ∧
    _check_and_set_processing_sync completedDbFix 2 = (false, completedDbFix) ∧
    (_check_and_set_processing_sync fullDbFix 1).1 = true ∧
    lookupSession (_check_and_set_processing_sync fullDbFix 1).2 1 =
      some { uploadedSessionFix with status := "processing" } :=
  ⟨(gate_contract emptyDbFix 9).1 rfl,
   (gate_contract completedDbFix 2).2.1 completedSessionFix rfl (by decide) (by decide),
   ((gate_contract fullDbFix 1).2.2 uploadedSessionFix rfl (Or.inl rfl)).1,
   ((gate_contract fullDbFix 1).2.2 uploadedSessionFix rfl (Or.inl rfl)).2.1⟩

/-- C9 witness. -/
theorem gate_exclusivity_witness :
    (_check_and_set_processing_sync fullDbFix 1).1 = true ∧
    (_check_and_set_processing_sync (_check_and_set_processing_sync fullDbFix 1).2 1).1 =
      false :=
  gate_exclusivity fullDbFix 1 uploadedSessionFix rfl rfl

/-- C10 witness. -/
theorem set_terminal_missing_row_witness :
    _set_terminal_status_sync emptyDbFix 5 "failed" (some "x") = emptyDbFix :=
  set_terminal_missing_row emptyDbFix 5 "failed" (some "x") rfl

/-- C7 witness. -/
theorem key_moment_clamping_witness :
    _calculate_clamped_key_moment
      (some (Json.obj [("key_moment_seconds", Json.num 100)])) 30 =
      max 0 ((30 : ℚ) - 30) :=
  (key_moment_clamping 100 30).2 (by simp) (by simp)

/-- C6 witness. -/
theorem narration_pivot_override_witness :
    jGet narrationResultFix "pivot" = some (Json.str PIVOT_LINE) :=
  (narration_pivot_override narrationEnvFix 1 fullDbFix narrationResultFix _ rfl).1

/-- C4 witness. -/
theorem summary_dedup_witness :
    summaryCount
      (run_coaching_script coachEnvFix 1 ragResultFix
        (run_coaching_script coachEnvFix 1 ragResultFix fullDbFix).2).2 7 1 ≤ 1 :=
  summary_dedup_two_runs coachEnvFix coachEnvFix ragResultFix ragResultFix 1 7 fullDbFix
    (by decide)

/-- C5 witness for the amended claim. -/
theorem required_key_validation_witness :
    (∃ e, run_video_analysis { gemini := Except.ok "not json" } 1 fullDbFix =
      (Except.error e, fullDbFix)) ∧
    (∃ e, run_video_analysis
      { gemini := Except.ok "\x7b\x22cooking_events\x22: [], \x22key_moment_timestamp\x22: \x22t\x22, \x22key_moment_seconds\x22: \x22ten\x22\x7d" }
      1 fullDbFix = (Except.error e, fullDbFix)) ∧
    (∃ e, run_coaching_script { gemini := Except.ok "also not json" } 1
      ragResultFix fullDbFix = (Except.error e, fullDbFix)) ∧
    (∃ e, run_coaching_script { gemini := Except.ok "\x7b\x22skill\x22: \x22s\x22\x7d" } 1
      ragResultFix fullDbFix = (Except.error e, fullDbFix)) ∧
    (∃ e, run_narration_script { gemini := Except.ok "still not json" } 1
      fullDbFix = (Except.error e, fullDbFix)) ∧
    (∃ e, run_narration_script { gemini := Except.ok "\x7b\x22part2\x22: \x22p\x22\x7d" } 1
      fullDbFix = (Except.error e, fullDbFix)) ∧
    (∃ e, run_narration_script { gemini := Except.ok "\x7b\x22part1\x22: \x22a\x22\x7d" } 1
      fullDbFix = (Except.error e, fullDbFix)) := by
  obtain ⟨h₁, h₂, h₃, h₄, h₅, h₆, h₇⟩ := required_key_validation 1 fullDbFix
  refine ⟨h₁ _ "not json" _ rfl rfl,
    h₂ _ _ _ "diagnosis" rfl rfl (by decide) (by decide),
    h₃ _ ragResultFix "also not json" _ rfl rfl,
    h₄ _ ragResultFix _ _ "mondaiten" rfl rfl (by decide) (by decide),
    h₅ _ "still not json" _ rfl rfl,
    h₆ _ _ _ "part1" rfl rfl (by decide) (by decide),
    h₇ _ _ _ "part2" rfl rfl (by decide) (by decide) (by decide)⟩

/-- C8 witness for the amended claim. -/
theorem parse_json_first_brace_witness :
    _parse_json_response "no json here" =
      Except.error ("No JSON object found in response: " ++
        String.mk ("no json here".toList.take 200)) ∧
    _parse_json_response "see \x7b\x22k\x22: true\x7d end" =
      Except.ok (Json.obj [("k", Json.bool true)]) := by
  obtain ⟨h₁, h₂, h₃, h₄⟩ := parse_json_first_brace "no json here"
  obtain ⟨g₁, g₂, g₃, g₄⟩ := parse_json_first_brace "see \x7b\x22k\x22: true\x7d end"
  exact ⟨h₁ rfl, (g₂ _ _ rfl).1⟩

/-- C3 witness. -/
theorem pipeline_success_path_witness :
    (cooking_pipeline pipelineEnvFix (some 1) (some 7) fullDbFix).1 = Except.ok () ∧
    (lookupSession (cooking_pipeline pipelineEnvFix (some 1) (some 7) fullDbFix).2 1).map
      (fun s => (s.status, s.pipeline_error)) = some ("completed", "") := by
  obtain ⟨hrun, s₆, hs₆, hfin⟩ :=
    pipeline_success_path pipelineEnvFix fullDbFix _ _ _ _ _ _ _ 1 7 _ _ _ _ _ _
      rfl rfl rfl rfl rfl rfl rfl rfl
  constructor
  · rw [hrun]
  · rw [hfin]
    rfl

/-- C2 witness. -/
theorem pipeline_failure_path_witness :
    (cooking_pipeline failEnvFix (some 1) (some 7) fullDbFix).1 = Except.error "boom" ∧
    (lookupSession (cooking_pipeline failEnvFix (some 1) (some 7) fullDbFix).2 1).map
      (fun s => (s.status, s.pipeline_error, s.coaching_text, s.narration_script,
        s.coaching_video_gcs_path)) = some ("failed", "boom", none, none, "") := by
  obtain ⟨c0, c1, c2, c3a, c3b, c4, cg⟩ :=
    pipeline_failure_path failEnvFix 1 7 fullDbFix _ uploadedSessionFix rfl rfl
  obtain ⟨t1, t2, t3⟩ := c2 _ _ _ _ "boom" _ rfl rfl rfl
  refine ⟨t1, ?_⟩
  obtain ⟨s', hs', hst, hpe, hct, hns, hcv⟩ := t2 rfl
  rw [hs']
  simp [hst, hpe, hct, hns, hcv, uploadedSessionFix]
